import Mathlib

/-!
# Radio scheduling state machine of the nRF51 binding

A shallow embedding of `bluetoe/bindings/nrf51.cpp`: the member functions of
`scheduled_radio_base` become functions on an explicit `machine` value that
holds the members of the object, the registers of the radio, of timer 0 and of
the PPI unit that the code reads or writes, the byte memory the buffers point
into and the log of the callbacks invoked so far.

Conventions of the embedding

* a failed `assert` makes a function return `Except.error fault.assertion_failed`;
* registers that the code uses only through named bit masks (`INTENSET`,
  `INTENCLR`, `SHORTS`, `CHENSET`, `CHENCLR`) are records with one boolean per
  named mask and one boolean `OTHER` for all remaining bits;
* writing 1 to a radio task register appends the task to `radio_tasks`;
  `TASKS_CAPTURE[n]` copies the counter into `CC[n]`, `TASKS_CLEAR` zeroes the
  counter;
* 32 bit unsigned arithmetic is arithmetic on `Nat` reduced modulo `2 ^ 32`;
* the debug pin toggles on `NRF_GPIO` are left out, nothing reads them back.
-/

namespace link_layer

/-! ## The channel map

`bluetoe/link_layer/channel_map.hpp` is not among the sources, only its tests
(tests/link_layer/channel_map_tests.cpp) are. -/

/-- Number of data channels of a connection. -/
def max_number_of_data_channels : Nat := 37

/-- Modelled from the spec: whether the channel usage bitmap marks the data channel `c`
as used. The implementation of `channel_map` is missing; the bitmap is the byte sequence
handed to `reset`, bit `c % 8` of byte `c / 8` stands for channel `c`, so that the bytes
`ff ff ff ff 1f` of the tests mark all 37 channels. -/
def channel_used (channel_bitmap : List Nat) (c : Nat) : Bool :=
  decide (c < max_number_of_data_channels) && (channel_bitmap.getD (c / 8) 0).testBit (c % 8)

/-- Modelled from the spec: `link_layer::channel_map`, whose declaration is missing. The
spec gives it a hop increment, the set of used channels (here one boolean for each of
the 37 channels) and the derived remap table, the used channels in ascending order. -/
structure channel_map where
  hop_increment : Nat
  used_channels : List Bool
  remap_table : List Nat
deriving DecidableEq, Repr

/-- Whether the map marks channel `c` as used. -/
def channel_map.is_used (m : channel_map) (c : Nat) : Bool := m.used_channels.getD c false

/-- Modelled from the spec: `channel_map::reset`, whose body is missing. It "validates
`5 ≤ hop_increment ≤ 16`; fails (returns a rejection, does not mutate state) otherwise"
and "builds, from the 37 bit usable channel bitmap, an ordered remap table of all used
channel indices in ascending order". The result is the returned flag and the map
afterwards. -/
def channel_map.reset (m : channel_map) (channel_bitmap : List Nat) (hop_increment : Nat) :
    Bool × channel_map :=
  if hop_increment < 5 ∨ 16 < hop_increment then (false, m)
  else
    (true,
      { hop_increment := hop_increment
        used_channels :=
          (List.range max_number_of_data_channels).map (channel_used channel_bitmap)
        remap_table :=
          (List.range max_number_of_data_channels).filter (channel_used channel_bitmap) })

/-- Modelled from the spec: `channel_map::next_channel`, whose body is missing. It
"computes `candidate = (last_unmapped_channel + hop_increment) mod 37`. If `candidate` is
marked used, return it directly. Otherwise remap:
`remapping_index = candidate mod number_of_used_channels`; return the
`remapping_index`-th entry of the remap table." -/
def channel_map.next_channel (m : channel_map) (last_unmapped_channel : Nat) : Nat :=
  let candidate := (last_unmapped_channel + m.hop_increment) % max_number_of_data_channels
  if m.is_used candidate then candidate
  else
    let remapping_index := candidate % m.remap_table.length
    m.remap_table.getD remapping_index 0

/-- The bitmap `all_channel_map` of the tests: every data channel is used. -/
def all_channel_map : List Nat := [0xff, 0xff, 0xff, 0xff, 0x1f]

/-- A bitmap that marks only the channels 1, 9 and 20 as used. -/
def sparse_channel_map : List Nat := [0x02, 0x02, 0x10, 0x00, 0x00]

/-- The fixture `all_channel< Hop >` of the tests: the map after
`reset( all_channel_map, Hop )` on a map that was never set up. -/
def all_channel (hop : Nat) : channel_map :=
  (channel_map.reset ⟨0, [], []⟩ all_channel_map hop).2

end link_layer

namespace bluetoe

/-! ## Characteristic values (characteristic_value.hpp)

The static member functions of `bind_characteristic_value< T, Ptr >::value_impl` and of
`fixed_value< T, Value >::value_impl`. The template parameters become arguments:
`sizeof_T` is `sizeof( T )`, `is_const` is `std::is_const< T >::value`, `Options` is the
option list of the characteristic, `Value` is the fixed value as an unsigned number. The
bound variable `*Ptr` and the buffer `args.buffer` are byte sequences indexed from their
first byte. -/

/-- The options of a characteristic that characteristic_value.hpp declares. -/
inductive characteristic_option where
  | no_read_access
  | no_write_access
  | notify
  | indicate
deriving DecidableEq, Repr

/-- Modelled from the spec: `details::has_option`, declared in bluetoe/options.hpp which is
not among the sources (the spec leaves the attribute server out): whether the option list
names the option. -/
def has_option (o : characteristic_option) (Options : List characteristic_option) : Bool :=
  Options.contains o

/-- Modelled from the spec: `details::attribute_access_result`, declared in
bluetoe/attribute.hpp which is not among the sources; the enumerators are those that
characteristic_value.hpp names. -/
inductive attribute_access_result where
  | success
  | invalid_offset
  | write_not_permitted
  | read_not_permitted
  | invalid_attribute_value_length
deriving DecidableEq, Repr

/-- Modelled from the spec: `details::attribute_access_type`, declared in
bluetoe/attribute.hpp which is not among the sources; characteristic_value.hpp names
`read` and `write`, `other` stands for every further enumerator. -/
inductive attribute_access_type where
  | read
  | write
  | other
deriving DecidableEq, Repr

/-- Modelled from the spec: `details::attribute_access_arguments`, declared in
bluetoe/attribute.hpp which is not among the sources; the members are those that
characteristic_value.hpp uses. `buffer` holds the bytes that the pointer `args.buffer`
points to. The types of `buffer_size` and `buffer_offset` are declared in that header;
they are the length of an existing buffer and a position in an attribute value, and are
taken as natural numbers. -/
structure attribute_access_arguments where
  type : attribute_access_type
  buffer : Nat → Nat
  buffer_size : Nat
  buffer_offset : Nat

/-- What an access leaves behind: the returned result, the arguments as the call left
them and the bytes of the bound variable. -/
structure access_outcome where
  result : attribute_access_result
  args : attribute_access_arguments
  value : Nat → Nat

/-- The call `std::copy( first, first + size, target + offset )` on byte sequences. -/
def std_copy (source : Nat → Nat) (size : Nat) (target : Nat → Nat) (offset : Nat) :
    Nat → Nat :=
  fun j => if offset ≤ j ∧ j < offset + size then source (j - offset) else target j

namespace bind_characteristic_value

/-- The constant `has_read_access` of `bind_characteristic_value::value_impl` (line 99). -/
def has_read_access (Options : List characteristic_option) : Bool :=
  !has_option characteristic_option.no_read_access Options

/-- The constant `has_write_access` of `bind_characteristic_value::value_impl` (line
100). -/
def has_write_access (is_const : Bool) (Options : List characteristic_option) : Bool :=
  !is_const && !has_option characteristic_option.no_write_access Options

/-- The two overloads of `characteristic_value_read_access` (lines 127 to 135), selected
by `has_read`. `attribute_value_read_access` is the helper `details::attribute_value_read_access`
of bluetoe/attribute.hpp, which is not among the sources and is taken as an argument. -/
def characteristic_value_read_access
    (attribute_value_read_access :
      attribute_access_arguments → (Nat → Nat) → Nat →
        attribute_access_result × attribute_access_arguments)
    (sizeof_T : Nat) (value : Nat → Nat) (args : attribute_access_arguments)
    (has_read : Bool) : access_outcome :=
  if has_read then
    { result := (attribute_value_read_access args value sizeof_T).1
      args := (attribute_value_read_access args value sizeof_T).2
      value := value }
  else
    { result := attribute_access_result.read_not_permitted, args := args, value := value }

/-- The two overloads of `characteristic_value_write_access` (lines 137 to 156), selected
by `has_write`. The sum in line 142 adds the size of an existing buffer to an offset
that line 139 has bounded by `sizeof( T )`. -/
def characteristic_value_write_access (sizeof_T : Nat) (value : Nat → Nat)
    (args : attribute_access_arguments) (has_write : Bool) : access_outcome :=
  if has_write then
    if args.buffer_offset > sizeof_T then
      { result := attribute_access_result.invalid_offset, args := args, value := value }
    else if args.buffer_size + args.buffer_offset > sizeof_T then
      { result := attribute_access_result.invalid_attribute_value_length
        args := args, value := value }
    else
      let args1 : attribute_access_arguments :=
        { args with buffer_size := min args.buffer_size (sizeof_T - args.buffer_offset) }
      { result := attribute_access_result.success
        args := args1
        value := std_copy args1.buffer args1.buffer_size value args1.buffer_offset }
  else
    { result := attribute_access_result.write_not_permitted, args := args, value := value }

/-- The function `bind_characteristic_value::value_impl::characteristic_value_access`
(lines 104 to 116). -/
def characteristic_value_access
    (attribute_value_read_access :
      attribute_access_arguments → (Nat → Nat) → Nat →
        attribute_access_result × attribute_access_arguments)
    (sizeof_T : Nat) (is_const : Bool) (Options : List characteristic_option)
    (value : Nat → Nat) (args : attribute_access_arguments) : access_outcome :=
  if args.type = attribute_access_type.read then
    characteristic_value_read_access attribute_value_read_access sizeof_T value args
      (has_read_access Options)
  else if args.type = attribute_access_type.write then
    characteristic_value_write_access sizeof_T value args (has_write_access is_const Options)
  else
    { result := attribute_access_result.write_not_permitted, args := args, value := value }

end bind_characteristic_value

namespace fixed_value

/-- The constant `has_read_access` of `fixed_value::value_impl` (line 178). -/
def has_read_access (Options : List characteristic_option) : Bool :=
  !has_option characteristic_option.no_read_access Options

/-- The loop of lines 197 to 199 with `count` iterations still to go: `i` is the loop
variable and `output` the index that the pointer `output` has reached in the buffer. The
loop runs from `buffer_offset` until `i` equals `buffer_offset + buffer_size`, that is
`buffer_size` times. -/
def copy_data (Value : Nat) : Nat → Nat → Nat → (Nat → Nat) → (Nat → Nat)
  | 0, _, _, buffer => buffer
  | count + 1, i, output, buffer =>
    copy_data Value count (i + 1) (output + 1)
      (Function.update buffer output ((Value >>> (8 * i)) &&& 0xff))

/-- The function `fixed_value::value_impl::characteristic_value_access` (lines 183 to
202). -/
def characteristic_value_access (sizeof_T : Nat) (Value : Nat)
    (Options : List characteristic_option) (args : attribute_access_arguments) :
    attribute_access_result × attribute_access_arguments :=
  if !has_read_access Options then (attribute_access_result.read_not_permitted, args)
  else if args.type ≠ attribute_access_type.read then
    (attribute_access_result.write_not_permitted, args)
  else if args.buffer_offset > sizeof_T then (attribute_access_result.invalid_offset, args)
  else
    let args1 : attribute_access_arguments :=
      { args with buffer_size := min args.buffer_size (sizeof_T - args.buffer_offset) }
    (attribute_access_result.success,
      { args1 with
        buffer := copy_data Value args1.buffer_size args1.buffer_offset 0 args1.buffer })

end fixed_value

/-- A helper for reads of a bound variable that copies the bytes from the offset on; it
stands in for `details::attribute_value_read_access` in concrete runs. -/
def example_read_access (args : attribute_access_arguments) (value : Nat → Nat)
    (size : Nat) : attribute_access_result × attribute_access_arguments :=
  if args.buffer_offset > size then (attribute_access_result.invalid_offset, args)
  else
    (attribute_access_result.success,
      { args with
        buffer_size := min args.buffer_size (size - args.buffer_offset)
        buffer := fun k =>
          if k < min args.buffer_size (size - args.buffer_offset) then
            value (args.buffer_offset + k)
          else args.buffer k })

/-- The bytes `dd cc bb aa` of the variable `simple_value = 0xaabbccdd` of the examples
in characteristic_value.hpp. -/
def simple_value : Nat → Nat :=
  fun j => if j = 0 then 0xdd else if j = 1 then 0xcc else if j = 2 then 0xbb
    else if j = 3 then 0xaa else 0

/-- A read request for up to 20 bytes from offset 0 into a zeroed buffer. -/
def read_request : attribute_access_arguments :=
  { type := attribute_access_type.read, buffer := fun _ => 0, buffer_size := 20,
    buffer_offset := 0 }

/-- A write request of the two bytes `11 22` at offset 1. -/
def write_request : attribute_access_arguments :=
  { type := attribute_access_type.write
    buffer := fun k => if k = 0 then 0x11 else if k = 1 then 0x22 else 0
    buffer_size := 2, buffer_offset := 1 }

end bluetoe

namespace nrf51_details

/-! ## Constants (nrf51.cpp, lines 16 to 28) -/

/-- Time in microseconds after which a missing response to an advertisement is given up. -/
def adv_reponse_timeout_us : Nat := 152 + 5 * 8 + 120

/-- Largest advertising PDU the radio is programmed for. -/
def maximum_advertising_pdu_size : Nat := 0x3f

/-- Bit of the first PDU byte that announces more data. -/
def more_data_flag : Nat := 0x10

/-- Air time of preamble and access address in microseconds. -/
def us_from_packet_start_to_address_end : Nat := (1 + 4) * 8

/-- Ramp up time of the receiver in microseconds. -/
def us_radio_rx_startup_time : Nat := 138

/-- Size of a connect request PDU in bytes. -/
def connect_request_size : Nat := 36

/-- Number of values of a 32 bit register. -/
def two32 : Nat := 4294967296

/-! ## Value types of the link layer -/

/-- Modelled from the spec: `link_layer::delta_time`, declared in
bluetoe/link_layer/delta_time.hpp which is not among the sources. The spec calls it a
microsecond resolution duration value; the code here only constructs it from a 32 bit
count and reads that count back with `usec()`, tests it with `zero()` and compares
two of them with `<`. -/
structure delta_time where
  usec_ : Nat
deriving DecidableEq, Repr

/-- The count of microseconds, `delta_time::usec()`. -/
def delta_time.usec (d : delta_time) : Nat := d.usec_

/-- Whether the duration is zero, `delta_time::zero()`. -/
def delta_time.zero (d : delta_time) : Bool := d.usec_ == 0

/-- Comparison of two durations, `operator<` of `delta_time`. -/
def delta_time.lt (a b : delta_time) : Bool := decide (a.usec_ < b.usec_)

/-- Modelled from the spec: `link_layer::read_buffer`, declared in
bluetoe/link_layer/buffer.hpp which is not among the sources: a non owning view made of
a start address (0 is the null pointer) and a length. -/
structure read_buffer where
  buffer : Nat
  size : Nat
deriving DecidableEq, Repr

/-- Modelled from the spec: `read_buffer::empty()`; the view is empty when it has no
storage and no length. -/
def read_buffer.empty (b : read_buffer) : Bool := b.buffer == 0 && b.size == 0

/-- Modelled from the spec: `link_layer::write_buffer`, declared in
bluetoe/link_layer/buffer.hpp which is not among the sources: start address and length
of a PDU to be sent. -/
structure write_buffer where
  buffer : Nat
  size : Nat
deriving DecidableEq, Repr

/-! ## The protocol state and the collaborators -/

/-- The enumeration `scheduled_radio_base::state`. -/
inductive state where
  | idle
  | adv_transmitting_pending
  | adv_transmitting
  | adv_receiving
  | adv_timeout_stopping
  | evt_wait_connect
  | evt_receiving
  | evt_transmiting
  | evt_transmiting_closing
deriving DecidableEq, Repr

/-- One invocation of a member of the callback interface `adv_callbacks`. -/
inductive callback where
  | adv_received (b : read_buffer)
  | adv_timeout
  | timeout
  | end_event
  | received_data (b : read_buffer)
  | next_transmit
  | allocate_receive_buffer
deriving DecidableEq, Repr

/-- The two members of the callback interface that return a value. What they return may
depend on every callback invoked before. -/
structure adv_callbacks where
  next_transmit : List callback → write_buffer
  allocate_receive_buffer : List callback → read_buffer

/-- A task of the radio that the code triggers by writing 1 to its task register. -/
inductive radio_task where
  | TXEN
  | RXEN
  | DISABLE
deriving DecidableEq, Repr

/-- The interrupt enable bits of the radio named in the code. -/
structure radio_inten where
  ADDRESS : Bool
  PAYLOAD : Bool
  DISABLED : Bool
  OTHER : Bool
deriving DecidableEq, Repr

/-- The interrupt enable bits of the timer named in the code. -/
structure timer_inten where
  COMPARE0 : Bool
  OTHER : Bool
deriving DecidableEq, Repr

/-- The shortcuts of the radio named in the code. -/
structure radio_shorts where
  READY_START : Bool
  END_DISABLE : Bool
  DISABLED_TXEN : Bool
  OTHER : Bool
deriving DecidableEq, Repr

/-- The PPI channels named in the code: 21 (compare 0 starts the receiver), 22 (compare 1
disables the radio) and 26 (the address event captures the timer). -/
structure ppi_chen where
  compare0_rxen : Bool
  compare1_disable : Bool
  radio_address_capture2 : Bool
  OTHER : Bool
deriving DecidableEq, Repr

/-- Why a function did not return normally. -/
inductive fault where
  | assertion_failed
  | waits_forever
deriving DecidableEq, Repr

/-- The scheduler object together with the peripherals it drives: the members of
`scheduled_radio_base`, the registers of `NRF_RADIO`, of `nrf_timer` and of `NRF_PPI`,
the byte memory and the log of callbacks. `RADIO_STATE_Disabled` tells whether
`NRF_RADIO->STATE` reads as disabled, `CRCSTATUS_CRCOk` whether `CRCSTATUS` reads as OK,
`PCNF1` is the 32 bit register of that name, `counter` is the free running counter of the
timer and `TIMER_INTEN` is what `INTENCLR` reads back. The
CRC failure counter is a natural number without a bound, its declaration is not part of
nrf51.cpp. -/
structure machine where
  timeout_ : Bool
  received_ : Bool
  evt_timeout_ : Bool
  end_evt_ : Bool
  state_ : state
  crc_reveice_failure_ : Nat
  receive_buffer_ : read_buffer
  anchor_offset_ : delta_time
  RADIO_STATE_Disabled : Bool
  FREQUENCY : Nat
  DATAWHITEIV : Nat
  PACKETPTR : Nat
  PCNF1 : Nat
  RADIO_INTEN : radio_inten
  EVENTS_END : Bool
  EVENTS_DISABLED : Bool
  EVENTS_READY : Bool
  EVENTS_ADDRESS : Bool
  EVENTS_PAYLOAD : Bool
  SHORTS : radio_shorts
  CRCSTATUS_CRCOk : Bool
  BASE0 : Nat
  PREFIX0 : Nat
  CRCINIT : Nat
  radio_tasks : List radio_task
  counter : Nat
  CC0 : Nat
  CC1 : Nat
  CC2 : Nat
  CC3 : Nat
  EVENTS_COMPARE0 : Bool
  EVENTS_COMPARE1 : Bool
  EVENTS_COMPARE2 : Bool
  EVENTS_COMPARE3 : Bool
  TIMER_INTEN : timer_inten
  PPI_CHEN : ppi_chen
  mem : Nat → Nat
  calls : List callback

/-- Writing `0xffffffff` to `NRF_RADIO->INTENCLR`. -/
def radio_inten_none : radio_inten := ⟨false, false, false, false⟩

/-- Writing `0xffffffff` to `nrf_timer->INTENCLR`; also the value that reads back as 0. -/
def timer_inten_none : timer_inten := ⟨false, false⟩

/-! ## The register PCNF1 -/

/-- Modelled from the spec: the position `RADIO_PCNF1_MAXLEN_Pos` of the MAXLEN field in
`PCNF1`, declared in nrf.h, which is not among the sources; on the nRF51 the field is the
low byte of the register. -/
def RADIO_PCNF1_MAXLEN_Pos : Nat := 0

/-- Modelled from the spec: the mask `RADIO_PCNF1_MAXLEN_Msk` of the MAXLEN field, declared
in nrf.h, which is not among the sources; the field has 8 bits. -/
def RADIO_PCNF1_MAXLEN_Msk : Nat := 0xFF <<< RADIO_PCNF1_MAXLEN_Pos

/-- The expression
`( NRF_RADIO->PCNF1 & ~RADIO_PCNF1_MAXLEN_Msk ) | ( size << RADIO_PCNF1_MAXLEN_Pos )` of
lines 198, 295, 370, 390 and 465 on 32 bit unsigned numbers. The size is not masked: what
of it does not fit the field is ORed into the fields above. -/
def pcnf1_with_maxlen (PCNF1 size : Nat) : Nat :=
  (PCNF1 &&& (0xFFFFFFFF ^^^ RADIO_PCNF1_MAXLEN_Msk))
    ||| ((size <<< RADIO_PCNF1_MAXLEN_Pos) % two32)

/-- Modelled from the spec: the value that `init_radio` assigns to `PCNF1` (lines 78 to
82): whitening enabled, little endian, a base address length of 3 and a static length of
0, with the values and positions of nrf.h, which is not among the sources (WHITEEN is bit
25, ENDIAN bit 24, BALEN starts at bit 16 and STATLEN at bit 8). -/
def pcnf1_initial : Nat := (1 <<< 25) ||| (0 <<< 24) ||| (3 <<< 16) ||| (0 <<< 8)

/-- The MAXLEN field of `PCNF1`: the maximum packet length that the radio works with. -/
def machine.PCNF1_MAXLEN (s : machine) : Nat :=
  (s.PCNF1 &&& RADIO_PCNF1_MAXLEN_Msk) >>> RADIO_PCNF1_MAXLEN_Pos

/-! ## The member functions -/

/-- The function `scheduled_radio_base::frequency_from_channel` (lines 160 to 177). -/
def frequency_from_channel (channel : Nat) : Except fault Nat :=
  if ¬ channel < 40 then .error .assertion_failed
  else if channel ≤ 10 then .ok (4 + 2 * channel)
  else if channel ≤ 36 then .ok (6 + 2 * channel)
  else if channel = 37 then .ok 2
  else if channel = 38 then .ok 26
  else .ok 80

/-- The function `scheduled_radio_base::schedule_advertisment_and_receive` (lines 179 to
238). `compare0_seen` is what the read of `EVENTS_COMPARE[ 0 ]` in line 231 returns: the
register was cleared in line 224 and only the running timer can have set it since.
`s.counter` is the counter value that `TASKS_CAPTURE[ 2 ]` latches in line 228. -/
def schedule_advertisment_and_receive (s : machine) (channel : Nat)
    (transmit : write_buffer) (when : delta_time) (receive : read_buffer)
    (compare0_seen : Bool) : Except fault machine :=
  if ¬ s.RADIO_STATE_Disabled then .error .assertion_failed
  else if s.received_ then .error .assertion_failed
  else if s.timeout_ then .error .assertion_failed
  else if s.state_ ≠ state.idle then .error .assertion_failed
  else if ¬ ((receive.buffer ≠ 0 ∧ receive.size ≥ 2) ∨ receive.empty) then
    .error .assertion_failed
  else
    let send_size := min transmit.size maximum_advertising_pdu_size
    match frequency_from_channel channel with
    | .error e => .error e
    | .ok frequency =>
      let s1 : machine := { s with
        receive_buffer_ :=
          { buffer := receive.buffer, size := min receive.size maximum_advertising_pdu_size }
        FREQUENCY := frequency
        DATAWHITEIV := channel &&& 0x3F
        PACKETPTR := transmit.buffer
        PCNF1 := pcnf1_with_maxlen s.PCNF1 send_size
        EVENTS_END := false
        EVENTS_DISABLED := false
        EVENTS_READY := false
        EVENTS_ADDRESS := false
        EVENTS_PAYLOAD := false
        SHORTS := ⟨true, true, false, false⟩
        PPI_CHEN := { s.PPI_CHEN with compare0_rxen := false, compare1_disable := false }
        RADIO_INTEN := { radio_inten_none with DISABLED := true, PAYLOAD := true } }
      if when.zero then
        .ok { s1 with
          state_ := state.adv_transmitting
          radio_tasks := s1.radio_tasks ++ [radio_task.TXEN] }
      else
        let s2 : machine := { s1 with
          state_ := state.adv_transmitting_pending
          EVENTS_COMPARE0 := compare0_seen
          CC0 := when.usec
          CC2 := s1.counter
          TIMER_INTEN := { s1.TIMER_INTEN with COMPARE0 := true } }
        if s2.EVENTS_COMPARE0 ∨ s2.CC2 ≥ s2.CC0 then
          .ok { s2 with
            state_ := state.adv_transmitting
            counter := 0
            radio_tasks := s2.radio_tasks ++ [radio_task.TXEN] }
        else
          .ok s2

/-- The constructor `scheduled_radio_base::scheduled_radio_base` (lines 130 to 158)
with `init_radio` and `init_timer`, run on the hardware state `hw`. The members that the
initialiser list does not name keep the value they have in `hw`. -/
def scheduled_radio_base (hw : machine) : machine :=
  { hw with
    timeout_ := false
    received_ := false
    evt_timeout_ := false
    end_evt_ := false
    state_ := state.idle
    crc_reveice_failure_ := 0
    PCNF1 := pcnf1_initial
    PPI_CHEN := { hw.PPI_CHEN with radio_address_capture2 := true }
    counter := 0
    EVENTS_COMPARE0 := false
    EVENTS_COMPARE1 := false
    EVENTS_COMPARE2 := false
    EVENTS_COMPARE3 := false
    TIMER_INTEN := timer_inten_none }

/-- The function `scheduled_radio_base::run` (lines 247 to 284), executed without an
interrupt arriving in between: the wait loop in line 250 then either falls through at
once or never ends. -/
def run (s : machine) : Except fault machine :=
  if !s.received_ && !s.timeout_ && !s.evt_timeout_ && !s.end_evt_ then
    .error .waits_forever
  else if ¬ s.RADIO_STATE_Disabled then .error .assertion_failed
  else if s.TIMER_INTEN ≠ timer_inten_none then .error .assertion_failed
  else if s.received_ ∧ s.PACKETPTR ≠ s.receive_buffer_.buffer then .error .assertion_failed
  else
    let s1 : machine :=
      if s.received_ then
        let rb : read_buffer :=
          { buffer := s.receive_buffer_.buffer
            size := min s.receive_buffer_.size ((s.mem (s.receive_buffer_.buffer + 1) &&& 0x3f) + 2) }
        { s with
          receive_buffer_ := rb
          received_ := false
          calls := s.calls ++ [callback.adv_received rb] }
      else s
    let s2 : machine :=
      if s1.timeout_ then
        { s1 with timeout_ := false, calls := s1.calls ++ [callback.adv_timeout] }
      else s1
    let s3 : machine :=
      if s2.evt_timeout_ then
        { s2 with evt_timeout_ := false, calls := s2.calls ++ [callback.timeout] }
      else s2
    let s4 : machine :=
      if s3.end_evt_ then
        { s3 with end_evt_ := false, calls := s3.calls ++ [callback.end_event] }
      else s3
    .ok s4

/-- The block `if ( NRF_RADIO->EVENTS_PAYLOAD )` of `radio_interrupt` (lines 288 to 301). -/
def radio_interrupt_payload (s : machine) : machine :=
  if s.EVENTS_PAYLOAD then
    let s1 : machine := { s with EVENTS_PAYLOAD := false }
    if s1.state_ = state.adv_transmitting then
      { s1 with
        PACKETPTR := s1.receive_buffer_.buffer
        PCNF1 := pcnf1_with_maxlen s1.PCNF1 s1.receive_buffer_.size
        EVENTS_ADDRESS := false
        RADIO_INTEN := { s1.RADIO_INTEN with ADDRESS := true, PAYLOAD := false } }
    else s1
  else s

/-- The branch for `evt_wait_connect` and `evt_receiving` inside the DISABLED block of
`radio_interrupt` (lines 352 to 384). -/
def radio_interrupt_evt_received (cbs : adv_callbacks) (s1 : machine) : machine :=
  let s2 : machine :=
    if s1.CRCSTATUS_CRCOk then
      let s1a : machine :=
        if ¬ s1.receive_buffer_.empty then
          { s1 with calls := s1.calls ++ [callback.received_data s1.receive_buffer_] }
        else s1
      { s1a with crc_reveice_failure_ := 0 }
    else
      { s1 with crc_reveice_failure_ := s1.crc_reveice_failure_ + 1 }
  let trans : write_buffer := cbs.next_transmit s2.calls
  let s3 : machine := { s2 with
    calls := s2.calls ++ [callback.next_transmit]
    PACKETPTR := trans.buffer
    PCNF1 := pcnf1_with_maxlen s2.PCNF1 trans.size
    mem := Function.update s2.mem trans.buffer (s2.mem trans.buffer &&& (0xFF ^^^ more_data_flag)) }
  let s4 : machine :=
    if s3.state_ = state.evt_wait_connect then
      { s3 with
        anchor_offset_ := ⟨(s3.CC1 + (two32 - us_from_packet_start_to_address_end)) % two32⟩ }
    else s3
  { s4 with
    state_ := state.evt_transmiting_closing
    SHORTS := ⟨true, true, false, false⟩ }

/-- The block `if ( NRF_RADIO->EVENTS_DISABLED )` of `radio_interrupt` (lines 303 to 404). -/
def radio_interrupt_disabled (cbs : adv_callbacks) (s : machine) : machine :=
  if s.EVENTS_DISABLED then
    let s1 : machine := { s with EVENTS_DISABLED := false }
    if s1.state_ = state.adv_timeout_stopping then
      { s1 with
        state_ := state.idle
        RADIO_INTEN := radio_inten_none
        TIMER_INTEN := timer_inten_none
        timeout_ := true }
    else if s1.state_ = state.adv_transmitting ∧ s1.receive_buffer_.empty then
      { s1 with state_ := state.idle, timeout_ := true }
    else if s1.state_ = state.adv_transmitting ∧ ¬ s1.receive_buffer_.empty then
      { s1 with
        state_ := state.adv_receiving
        radio_tasks := s1.radio_tasks ++ [radio_task.RXEN]
        CC0 := (s1.counter + adv_reponse_timeout_us) % two32
        EVENTS_COMPARE0 := false
        TIMER_INTEN := { s1.TIMER_INTEN with COMPARE0 := true } }
    else if s1.state_ = state.adv_receiving then
      let s2 : machine := { s1 with
        state_ := state.idle
        TIMER_INTEN := { s1.TIMER_INTEN with COMPARE0 := false }
        EVENTS_COMPARE0 := false
        anchor_offset_ := ⟨(s1.CC1 + connect_request_size * 8) % two32⟩ }
      if s2.CRCSTATUS_CRCOk then { s2 with received_ := true }
      else { s2 with timeout_ := true }
    else if s1.state_ = state.evt_wait_connect ∨ s1.state_ = state.evt_receiving then
      radio_interrupt_evt_received cbs s1
    else if s1.state_ = state.evt_transmiting then
      let rb : read_buffer := cbs.allocate_receive_buffer s1.calls
      { s1 with
        calls := s1.calls ++ [callback.allocate_receive_buffer]
        receive_buffer_ := rb
        PACKETPTR := rb.buffer
        PCNF1 := pcnf1_with_maxlen s1.PCNF1 rb.size
        SHORTS := ⟨true, true, true, false⟩ }
    else if s1.state_ = state.evt_transmiting_closing then
      { s1 with
        RADIO_INTEN := radio_inten_none
        TIMER_INTEN := timer_inten_none
        state_ := state.idle
        end_evt_ := true }
    else s1
  else s

/-- The block `if ( NRF_RADIO->EVENTS_ADDRESS )` of `radio_interrupt` (lines 406 to 418). -/
def radio_interrupt_address (s : machine) : machine :=
  if s.EVENTS_ADDRESS then
    let s1 : machine := { s with EVENTS_ADDRESS := false }
    if s1.state_ = state.adv_receiving then
      { s1 with
        TIMER_INTEN := { s1.TIMER_INTEN with COMPARE0 := false }
        EVENTS_COMPARE0 := false
        RADIO_INTEN := { s1.RADIO_INTEN with ADDRESS := false } }
    else s1
  else s

/-- The function `scheduled_radio_base::radio_interrupt` (lines 286 to 419): the three
event blocks one after the other. -/
def radio_interrupt (cbs : adv_callbacks) (s : machine) : machine :=
  radio_interrupt_address (radio_interrupt_disabled cbs (radio_interrupt_payload s))

/-- The function `scheduled_radio_base::timer_interrupt` (lines 421 to 439). -/
def timer_interrupt (s : machine) : machine :=
  let s1 : machine := { s with
    TIMER_INTEN := { s.TIMER_INTEN with COMPARE0 := false }
    EVENTS_COMPARE0 := false }
  if s1.state_ = state.adv_receiving then
    { s1 with
      state_ := state.adv_timeout_stopping
      radio_tasks := s1.radio_tasks ++ [radio_task.DISABLE] }
  else if s1.state_ = state.adv_transmitting_pending then
    { s1 with
      state_ := state.adv_transmitting
      counter := 0
      radio_tasks := s1.radio_tasks ++ [radio_task.TXEN] }
  else s1

/-- The function `scheduled_radio_base::start_connection_event` (lines 446 to 503). -/
def start_connection_event (s : machine) (channel : Nat)
    (start_receive end_receive : delta_time) (receive_buffer : read_buffer) :
    Except fault machine :=
  if ¬ s.RADIO_STATE_Disabled then .error .assertion_failed
  else if s.state_ ≠ state.idle then .error .assertion_failed
  else if ¬ ((receive_buffer.buffer ≠ 0 ∧ receive_buffer.size ≥ 2) ∨ receive_buffer.empty) then
    .error .assertion_failed
  else if ¬ start_receive.lt end_receive then .error .assertion_failed
  else
    match frequency_from_channel channel with
    | .error e => .error e
    | .ok frequency =>
      .ok { s with
        state_ := state.evt_wait_connect
        receive_buffer_ := receive_buffer
        crc_reveice_failure_ := 0
        FREQUENCY := frequency
        DATAWHITEIV := channel &&& 0x3F
        PACKETPTR := receive_buffer.buffer
        PCNF1 := pcnf1_with_maxlen s.PCNF1 receive_buffer.size
        RADIO_INTEN := { radio_inten_none with DISABLED := true, PAYLOAD := true }
        TIMER_INTEN := timer_inten_none
        EVENTS_END := false
        EVENTS_DISABLED := false
        EVENTS_READY := false
        EVENTS_ADDRESS := false
        SHORTS := ⟨true, true, true, false⟩
        EVENTS_COMPARE0 := false
        EVENTS_COMPARE1 := false
        CC0 := (start_receive.usec + s.anchor_offset_.usec
                  + (two32 - us_radio_rx_startup_time)) % two32
        CC1 := (end_receive.usec + s.anchor_offset_.usec + 1000) % two32
        PPI_CHEN := { s.PPI_CHEN with compare0_rxen := true } }

/-! ## Hardware events

The radio and the timer raise an event by setting its event register; the interrupt
controller then runs the handler. -/

/-- The radio raises its DISABLED event and `RADIO_IRQHandler` runs. -/
def radio_disabled_event (cbs : adv_callbacks) (s : machine) : machine :=
  radio_interrupt cbs { s with EVENTS_DISABLED := true }

/-- The timer raises its compare 0 event and `TIMER0_IRQHandler` runs. -/
def timer_compare_event (s : machine) : machine :=
  timer_interrupt { s with EVENTS_COMPARE0 := true }

/-- A hardware state right after reset: nothing enabled, nothing pending, the radio
disabled. Used to build concrete runs. -/
def reset_hardware : machine :=
  { timeout_ := false, received_ := false, evt_timeout_ := false, end_evt_ := false
    state_ := state.idle, crc_reveice_failure_ := 0
    receive_buffer_ := ⟨0, 0⟩, anchor_offset_ := ⟨0⟩
    RADIO_STATE_Disabled := true, FREQUENCY := 2, DATAWHITEIV := 0, PACKETPTR := 0
    PCNF1 := 0, RADIO_INTEN := radio_inten_none
    EVENTS_END := false, EVENTS_DISABLED := false, EVENTS_READY := false
    EVENTS_ADDRESS := false, EVENTS_PAYLOAD := false
    SHORTS := ⟨false, false, false, false⟩, CRCSTATUS_CRCOk := false
    BASE0 := 0, PREFIX0 := 0, CRCINIT := 0, radio_tasks := []
    counter := 0, CC0 := 0, CC1 := 0, CC2 := 0, CC3 := 0
    EVENTS_COMPARE0 := false, EVENTS_COMPARE1 := false
    EVENTS_COMPARE2 := false, EVENTS_COMPARE3 := false
    TIMER_INTEN := timer_inten_none, PPI_CHEN := ⟨false, false, false, false⟩
    mem := fun _ => 0, calls := [] }

/-- A collaborator that always hands out the same transmit and receive buffer. -/
def constant_callbacks (t : write_buffer) (r : read_buffer) : adv_callbacks :=
  { next_transmit := fun _ => t, allocate_receive_buffer := fun _ => r }

/-- The free running timer has reached the value `c`. -/
def timer_at (c : Nat) (s : machine) : machine := { s with counter := c }

/-- The scheduler right after construction on freshly reset hardware. -/
def constructed : machine := scheduled_radio_base reset_hardware

/-- The result of a call that returned, `d` otherwise. -/
def returned (r : Except fault machine) (d : machine) : machine :=
  match r with
  | .ok s => s
  | .error _ => d

/-- An advertisement on channel 37, 1000 microseconds after the last timer clear, with a
receive buffer of 40 bytes, scheduled while the timer shows 200. -/
def pending_example : machine :=
  returned (schedule_advertisment_and_receive (timer_at 200 constructed) 37
    ⟨0x20000100, 20⟩ ⟨1000⟩ ⟨0x20000200, 40⟩ false) constructed

/-- An advertisement without a receive buffer on channel 37, due 1000 microseconds after
the last timer clear, scheduled when the timer already shows 5000 and the compare event
has not been raised. -/
def late_example : machine :=
  returned (schedule_advertisment_and_receive (timer_at 5000 constructed) 37
    ⟨0x20000100, 20⟩ ⟨1000⟩ ⟨0, 0⟩ false) constructed

/-- A connection event on channel 5 with the receive window from 0 to 1000
microseconds. -/
def connection_example : machine :=
  returned (start_connection_event constructed 5 ⟨0⟩ ⟨1000⟩ ⟨0x20000200, 40⟩) constructed

/-- The state `connection_example` once the address of the first PDU was captured at
1000 microseconds and the radio has raised DISABLED. -/
def first_exchange_example : machine :=
  { connection_example with EVENTS_DISABLED := true, CC1 := 1000, CRCSTATUS_CRCOk := true }

/-- The state `first_exchange_example` with a PDU at 0x20000300 whose first byte `1b` has
the more data flag set. -/
def more_data_example : machine :=
  { first_exchange_example with mem := fun a => if a = 0x20000300 then 0x1b else 0 }

/-- The scheduler with the advertising timeout and the end of a connection event both
reported and not yet consumed. -/
def flags_example : machine :=
  { constructed with timeout_ := true, end_evt_ := true }

/-- The state `pending_example` after the transmission was started by the timer and has
ended at 376 microseconds, the address of a response was captured at 566 microseconds and
the radio has raised DISABLED with a valid CRC. -/
def response_example : machine :=
  { radio_disabled_event (constant_callbacks ⟨0, 0⟩ ⟨0, 0⟩)
      (timer_at 376 (timer_compare_event pending_example)) with
    EVENTS_DISABLED := true, CC1 := 566, CRCSTATUS_CRCOk := true }


/-- The number of result flags that are clear in `before` and set in `after`. -/
def raised_flags (before after : machine) : Nat :=
  ([!before.received_ && after.received_, !before.timeout_ && after.timeout_,
    !before.evt_timeout_ && after.evt_timeout_, !before.end_evt_ && after.end_evt_].filter
      id).length

/-- The scheduler in `idle` with the end of a connection event reported and not yet
consumed. -/
def end_reported_example : machine := { constructed with end_evt_ := true }

/-- The scheduler in `idle` with an advertising timeout reported and not yet consumed. -/
def timeout_reported_example : machine := { constructed with timeout_ := true }

/-- An advertisement on channel 38 that is sent at once. -/
def immediate_example : machine :=
  returned (schedule_advertisment_and_receive constructed 38
    ⟨0x20000100, 20⟩ ⟨0⟩ ⟨0x20000200, 40⟩ false) constructed

/-- The scheduler with a connect request of declared length 34 received into a buffer of
40 bytes at address 0x20000200. -/
def received_example : machine :=
  { constructed with
    received_ := true
    receive_buffer_ := ⟨0x20000200, 40⟩
    PACKETPTR := 0x20000200
    mem := fun a => if a = 0x20000201 then 34 else 0 }

/-! ## Reachable states

Between two steps of the software the hardware may change the registers that it writes
itself and the memory. -/

/-- The registers that the radio and the timer write on their own, and the memory. -/
structure hardware_view where
  RADIO_STATE_Disabled : Bool
  EVENTS_END : Bool
  EVENTS_DISABLED : Bool
  EVENTS_READY : Bool
  EVENTS_ADDRESS : Bool
  EVENTS_PAYLOAD : Bool
  CRCSTATUS_CRCOk : Bool
  counter : Nat
  CC0 : Nat
  CC1 : Nat
  CC2 : Nat
  CC3 : Nat
  EVENTS_COMPARE0 : Bool
  EVENTS_COMPARE1 : Bool
  EVENTS_COMPARE2 : Bool
  EVENTS_COMPARE3 : Bool
  mem : Nat → Nat

/-- The hardware moves its own registers and the memory to the values in `h`; the members
of the scheduler and the registers that only the software writes stay. -/
def hardware_sets (h : hardware_view) (s : machine) : machine :=
  { s with
    RADIO_STATE_Disabled := h.RADIO_STATE_Disabled
    EVENTS_END := h.EVENTS_END
    EVENTS_DISABLED := h.EVENTS_DISABLED
    EVENTS_READY := h.EVENTS_READY
    EVENTS_ADDRESS := h.EVENTS_ADDRESS
    EVENTS_PAYLOAD := h.EVENTS_PAYLOAD
    CRCSTATUS_CRCOk := h.CRCSTATUS_CRCOk
    counter := h.counter
    CC0 := h.CC0
    CC1 := h.CC1
    CC2 := h.CC2
    CC3 := h.CC3
    EVENTS_COMPARE0 := h.EVENTS_COMPARE0
    EVENTS_COMPARE1 := h.EVENTS_COMPARE1
    EVENTS_COMPARE2 := h.EVENTS_COMPARE2
    EVENTS_COMPARE3 := h.EVENTS_COMPARE3
    mem := h.mem }

/-- The states that the scheduler can get into: it is constructed on some hardware state
before any callback was invoked, and from then on accepted scheduling calls, returning
calls of `run`, radio interrupts and timer interrupts follow each other in any order, with
the hardware changing its registers in between. -/
inductive reachable (cbs : adv_callbacks) : machine → Prop where
  | constructed (hw : machine) (h : hw.calls = []) : reachable cbs (scheduled_radio_base hw)
  | hardware (h : hardware_view) (s : machine) (hs : reachable cbs s) :
      reachable cbs (hardware_sets h s)
  | schedule_advertisment (s s' : machine) (channel : Nat) (transmit : write_buffer)
      (when : delta_time) (receive : read_buffer) (compare0_seen : Bool)
      (hs : reachable cbs s)
      (h : schedule_advertisment_and_receive s channel transmit when receive compare0_seen
            = .ok s') : reachable cbs s'
  | connection_event (s s' : machine) (channel : Nat)
      (start_receive end_receive : delta_time) (receive_buffer : read_buffer)
      (hs : reachable cbs s)
      (h : start_connection_event s channel start_receive end_receive receive_buffer
            = .ok s') : reachable cbs s'
  | run (s s' : machine) (hs : reachable cbs s) (h : run s = .ok s') : reachable cbs s'
  | radio (s : machine) (hs : reachable cbs s) : reachable cbs (radio_interrupt cbs s)
  | timer (s : machine) (hs : reachable cbs s) : reachable cbs (timer_interrupt s)

/-- The state `connection_example` when the first exchange has ended with a PDU that
failed its CRC. -/
def crc_failure_example : machine :=
  { connection_example with EVENTS_DISABLED := true, CC1 := 1000, CRCSTATUS_CRCOk := false }

/-! ## Access address, and the scheduler used within its contract -/

/-- Modelled from the spec: the mask `RADIO_PREFIX0_AP0_Msk` of nrf.h, which is not among
the sources; the address prefix 0 is the low byte of the register `PREFIX0`. -/
def RADIO_PREFIX0_AP0_Msk : Nat := 0xFF

/-- The function `scheduled_radio_base::set_access_address_and_crc_init` (lines 240 to
245); the shift to the left is a shift of a 32 bit unsigned number. -/
def set_access_address_and_crc_init (s : machine) (access_address crc_init : Nat) : machine :=
  { s with
    BASE0 := ((access_address <<< 8) % two32) &&& 0xFFFFFF00
    PREFIX0 := (access_address >>> 24) &&& RADIO_PREFIX0_AP0_Msk
    CRCINIT := crc_init }

/-- The registers of `s` that the hardware writes, as they are. -/
def hardware_of (s : machine) : hardware_view :=
  { RADIO_STATE_Disabled := s.RADIO_STATE_Disabled
    EVENTS_END := s.EVENTS_END
    EVENTS_DISABLED := s.EVENTS_DISABLED
    EVENTS_READY := s.EVENTS_READY
    EVENTS_ADDRESS := s.EVENTS_ADDRESS
    EVENTS_PAYLOAD := s.EVENTS_PAYLOAD
    CRCSTATUS_CRCOk := s.CRCSTATUS_CRCOk
    counter := s.counter
    CC0 := s.CC0
    CC1 := s.CC1
    CC2 := s.CC2
    CC3 := s.CC3
    EVENTS_COMPARE0 := s.EVENTS_COMPARE0
    EVENTS_COMPARE1 := s.EVENTS_COMPARE1
    EVENTS_COMPARE2 := s.EVENTS_COMPARE2
    EVENTS_COMPARE3 := s.EVENTS_COMPARE3
    mem := s.mem }

/-- The states that the scheduler can get into when no connection event is started while
the `received` flag is pending: as `reachable`, but `start_connection_event` is only
called with the flag clear. -/
inductive reachable_in_contract (cbs : adv_callbacks) : machine → Prop where
  | constructed (hw : machine) (h : hw.calls = []) :
      reachable_in_contract cbs (scheduled_radio_base hw)
  | hardware (h : hardware_view) (s : machine) (hs : reachable_in_contract cbs s) :
      reachable_in_contract cbs (hardware_sets h s)
  | schedule_advertisment (s s' : machine) (channel : Nat) (transmit : write_buffer)
      (when : delta_time) (receive : read_buffer) (compare0_seen : Bool)
      (hs : reachable_in_contract cbs s)
      (h : schedule_advertisment_and_receive s channel transmit when receive compare0_seen
            = .ok s') : reachable_in_contract cbs s'
  | connection_event (s s' : machine) (channel : Nat)
      (start_receive end_receive : delta_time) (receive_buffer : read_buffer)
      (hs : reachable_in_contract cbs s)
      (hflag : s.received_ = false)
      (h : start_connection_event s channel start_receive end_receive receive_buffer
            = .ok s') : reachable_in_contract cbs s'
  | run (s s' : machine) (hs : reachable_in_contract cbs s) (h : run s = .ok s') :
      reachable_in_contract cbs s'
  | radio (s : machine) (hs : reachable_in_contract cbs s) :
      reachable_in_contract cbs (radio_interrupt cbs s)
  | timer (s : machine) (hs : reachable_in_contract cbs s) :
      reachable_in_contract cbs (timer_interrupt s)

/-- The advertisement of `immediate_example` after its transmission has ended: the
scheduler listens for a response. -/
def listening_example : machine :=
  radio_interrupt (constant_callbacks ⟨0, 0⟩ ⟨0, 0⟩)
    (hardware_sets { hardware_of immediate_example with EVENTS_DISABLED := true }
      immediate_example)

/-- The state `listening_example` after a connect request with a valid CRC has been
received: the `received` flag is pending. -/
def connect_request_example : machine :=
  radio_interrupt (constant_callbacks ⟨0, 0⟩ ⟨0, 0⟩)
    (hardware_sets
      { hardware_of listening_example with EVENTS_DISABLED := true, CRCSTATUS_CRCOk := true }
      listening_example)

/-- The state `connect_request_example` after a connection event without a receive
buffer has been started before `run` has consumed the `received` flag. -/
def overwritten_example : machine :=
  returned (start_connection_event connect_request_example 5 ⟨0⟩ ⟨1000⟩ ⟨0, 0⟩)
    connect_request_example

/-- The stored receive buffer has storage and room for the two header bytes of an
advertising PDU, and is not longer than the largest advertising PDU. -/
def holds_advertising_pdu (b : read_buffer) : Prop :=
  b.buffer ≠ 0 ∧ 2 ≤ b.size ∧ b.size ≤ 63

/-- What holds of the stored receive buffer in every state that is reached within the
contract: the states `evt_receiving` and `evt_transmiting` do not occur, the buffer
holds an advertising PDU whenever `received` is set or the scheduler listens for a
response, and it is empty or holds one while an advertisement is sent. -/
def receive_buffer_invariant (s : machine) : Prop :=
  s.state_ ≠ state.evt_receiving ∧ s.state_ ≠ state.evt_transmiting ∧
  (s.received_ = true → holds_advertising_pdu s.receive_buffer_) ∧
  (s.state_ = state.adv_receiving → holds_advertising_pdu s.receive_buffer_) ∧
  ((s.state_ = state.adv_transmitting ∨ s.state_ = state.adv_transmitting_pending) →
    (s.receive_buffer_.empty = true ∨ holds_advertising_pdu s.receive_buffer_))

/-! ## Theorems -/

/-- C1: no accepted call of `schedule_advertisment_and_receive` is lost. With `when` not
zero, if the compare 0 event is already pending or the captured counter is not below
`when.usec()`, the call itself sets the state to `adv_transmitting` and starts the
transmit task; and after every accepted call either the state is `adv_transmitting` with
the transmit task started, or the state is `adv_transmitting_pending` with the compare 0
interrupt enabled, compare 0 holding `when.usec()` and the captured counter strictly
below it. -/
theorem schedule_advertisment_never_lost (s s' : machine) (channel : Nat)
    (transmit : write_buffer) (when : delta_time) (receive : read_buffer)
    (compare0_seen : Bool)
    (h : schedule_advertisment_and_receive s channel transmit when receive compare0_seen
          = .ok s') :
    (when.zero = false → (compare0_seen = true ∨ s.counter ≥ when.usec) →
        s'.state_ = state.adv_transmitting ∧
        s'.radio_tasks = s.radio_tasks ++ [radio_task.TXEN]) ∧
    ((s'.state_ = state.adv_transmitting ∧
        s'.radio_tasks = s.radio_tasks ++ [radio_task.TXEN]) ∨
     (s'.state_ = state.adv_transmitting_pending ∧ s'.TIMER_INTEN.COMPARE0 = true ∧
        s'.CC0 = when.usec ∧ s'.CC2 = s.counter ∧ s'.CC2 < when.usec ∧
        s'.radio_tasks = s.radio_tasks)) := by
  unfold schedule_advertisment_and_receive at h
  split_ifs at h with _ _ _ _ _ hz
  · cases hf : frequency_from_channel channel with
    | error e => simp [hf] at h
    | ok f =>
      simp only [hf] at h
      cases h
      simp [hz]
  · cases hf : frequency_from_channel channel with
    | error e => simp [hf] at h
    | ok f =>
      simp only [hf] at h
      split_ifs at h with hr
      · cases h
        simp
      · cases h
        simp only [not_or, Bool.not_eq_true, ge_iff_le, not_le] at hr
        obtain ⟨hc, hlt⟩ := hr
        refine ⟨?_, Or.inr ⟨rfl, rfl, rfl, rfl, hlt, rfl⟩⟩
        intro _ hor
        rcases hor with hor | hor
        · simp [hc] at hor
        · exact absurd hor (by omega)

/-- Witness for C1: the advertisement of `late_example`, scheduled after its time has
passed, is accepted and is covered by the theorem. -/
theorem schedule_advertisment_never_lost_witness :
    schedule_advertisment_and_receive (timer_at 5000 constructed) 37
        ⟨0x20000100, 20⟩ ⟨1000⟩ ⟨0, 0⟩ false = .ok late_example ∧
    late_example.state_ = state.adv_transmitting ∧
    late_example.radio_tasks = (timer_at 5000 constructed).radio_tasks ++ [radio_task.TXEN] :=
  ⟨rfl, (schedule_advertisment_never_lost (timer_at 5000 constructed) late_example 37
      ⟨0x20000100, 20⟩ ⟨1000⟩ ⟨0, 0⟩ false rfl).1 (by decide) (Or.inr (by decide))⟩

/-- C2, the code at the failing input: on the constructed scheduler an advertisement
without a receive buffer, due at 1000 microseconds and scheduled when the timer already
shows 5000, is accepted and started at once with the compare 0 interrupt left enabled;
the DISABLED event at the end of the transmission then raises the timeout flag in `idle`
while the compare 0 interrupt is still enabled, and `run` stops at its assertion. -/
theorem adv_timeout_flag_with_compare_interrupt_enabled :
    schedule_advertisment_and_receive (timer_at 5000 constructed) 37
        ⟨0x20000100, 20⟩ ⟨1000⟩ ⟨0, 0⟩ false = .ok late_example ∧
    (radio_disabled_event (constant_callbacks ⟨0, 0⟩ ⟨0, 0⟩) late_example).state_
        = state.idle ∧
    (radio_disabled_event (constant_callbacks ⟨0, 0⟩ ⟨0, 0⟩) late_example).timeout_
        = true ∧
    (radio_disabled_event (constant_callbacks ⟨0, 0⟩ ⟨0, 0⟩) late_example).TIMER_INTEN.COMPARE0
        = true ∧
    (radio_disabled_event (constant_callbacks ⟨0, 0⟩ ⟨0, 0⟩) late_example).RADIO_STATE_Disabled
        = true ∧
    run (radio_disabled_event (constant_callbacks ⟨0, 0⟩ ⟨0, 0⟩) late_example)
        = .error .assertion_failed :=
  ⟨rfl, by decide, by decide, by decide, by decide, rfl⟩

/-- C3: when at least one of the four result flags is set (and the assertions of `run`
hold), `run` returns, it has invoked one callback for each set flag and none for a clear
flag, in the order `adv_received`, `adv_timeout`, `timeout`, `end_event`, and all four
flags are clear afterwards. -/
theorem run_drains_flags_in_order (s : machine)
    (hflag : s.received_ = true ∨ s.timeout_ = true ∨ s.evt_timeout_ = true ∨
      s.end_evt_ = true)
    (hradio : s.RADIO_STATE_Disabled = true)
    (htimer : s.TIMER_INTEN = timer_inten_none)
    (hptr : s.received_ = true → s.PACKETPTR = s.receive_buffer_.buffer) :
    ∃ s', run s = .ok s' ∧
      s'.calls = s.calls ++
        ((if s.received_ then
            [callback.adv_received
              ⟨s.receive_buffer_.buffer,
                min s.receive_buffer_.size
                  ((s.mem (s.receive_buffer_.buffer + 1) &&& 0x3f) + 2)⟩]
          else []) ++
         (if s.timeout_ then [callback.adv_timeout] else []) ++
         (if s.evt_timeout_ then [callback.timeout] else []) ++
         (if s.end_evt_ then [callback.end_event] else [])) ∧
      s'.received_ = false ∧ s'.timeout_ = false ∧ s'.evt_timeout_ = false ∧
      s'.end_evt_ = false := by
  unfold run
  cases h1 : s.received_ <;> cases h2 : s.timeout_ <;> cases h3 : s.evt_timeout_ <;>
    cases h4 : s.end_evt_ <;> simp_all

/-- Witness for C3: with the timeout and the end of event flag set, `run` reports
`adv_timeout` and then `end_event`. -/
theorem run_drains_flags_in_order_witness :
    (flags_example.received_ = true ∨ flags_example.timeout_ = true ∨
      flags_example.evt_timeout_ = true ∨ flags_example.end_evt_ = true) ∧
    ∃ s', run flags_example = .ok s' ∧
      s'.calls = flags_example.calls ++
        ((if flags_example.received_ then
            [callback.adv_received
              ⟨flags_example.receive_buffer_.buffer,
                min flags_example.receive_buffer_.size
                  ((flags_example.mem (flags_example.receive_buffer_.buffer + 1) &&& 0x3f)
                    + 2)⟩]
          else []) ++
         (if flags_example.timeout_ then [callback.adv_timeout] else []) ++
         (if flags_example.evt_timeout_ then [callback.timeout] else []) ++
         (if flags_example.end_evt_ then [callback.end_event] else [])) ∧
      s'.received_ = false ∧ s'.timeout_ = false ∧ s'.evt_timeout_ = false ∧
      s'.end_evt_ = false :=
  ⟨by decide, run_drains_flags_in_order flags_example (by decide) (by decide) (by decide)
    (by decide)⟩

/-- C4: in state `adv_receiving` the DISABLED event moves the state to `idle`, disables
the compare 0 interrupt and raises exactly one result flag, `received` when the CRC status
is OK and `timeout` otherwise; every other flag keeps its value. -/
theorem adv_receiving_disabled_raises_one_flag (cbs : adv_callbacks) (s : machine)
    (hs : s.state_ = state.adv_receiving) (he : s.EVENTS_DISABLED = true) :
    (radio_interrupt cbs s).state_ = state.idle ∧
    (radio_interrupt cbs s).TIMER_INTEN.COMPARE0 = false ∧
    (radio_interrupt cbs s).evt_timeout_ = s.evt_timeout_ ∧
    (radio_interrupt cbs s).end_evt_ = s.end_evt_ ∧
    ((s.CRCSTATUS_CRCOk = true ∧ (radio_interrupt cbs s).received_ = true ∧
        (radio_interrupt cbs s).timeout_ = s.timeout_) ∨
     (s.CRCSTATUS_CRCOk = false ∧ (radio_interrupt cbs s).timeout_ = true ∧
        (radio_interrupt cbs s).received_ = s.received_)) := by
  cases hp : s.EVENTS_PAYLOAD <;> cases ha : s.EVENTS_ADDRESS <;>
    cases hc : s.CRCSTATUS_CRCOk <;>
    simp [radio_interrupt, radio_interrupt_payload, radio_interrupt_disabled,
      radio_interrupt_address, hs, he, hp, ha, hc]

/-- Witness for C4: the response of `response_example` has a valid CRC and raises
`received`. -/
theorem adv_receiving_disabled_raises_one_flag_witness :
    response_example.state_ = state.adv_receiving ∧
    response_example.EVENTS_DISABLED = true ∧
    (radio_interrupt (constant_callbacks ⟨0, 0⟩ ⟨0, 0⟩) response_example).state_
      = state.idle ∧
    (radio_interrupt (constant_callbacks ⟨0, 0⟩ ⟨0, 0⟩) response_example).TIMER_INTEN.COMPARE0
      = false :=
  ⟨by decide, by decide,
    (adv_receiving_disabled_raises_one_flag (constant_callbacks ⟨0, 0⟩ ⟨0, 0⟩)
      response_example (by decide) (by decide)).1,
    (adv_receiving_disabled_raises_one_flag (constant_callbacks ⟨0, 0⟩ ⟨0, 0⟩)
      response_example (by decide) (by decide)).2.1⟩

/-- Facts about an accepted `schedule_advertisment_and_receive` used by the scenarios. -/
theorem schedule_accepted (s s' : machine) (channel : Nat)
    (transmit : write_buffer) (when : delta_time) (receive : read_buffer)
    (compare0_seen : Bool)
    (h : schedule_advertisment_and_receive s channel transmit when receive compare0_seen
          = .ok s') :
    (s'.state_ = state.adv_transmitting ∨ s'.state_ = state.adv_transmitting_pending) ∧
    s'.receive_buffer_ = ⟨receive.buffer, min receive.size maximum_advertising_pdu_size⟩ ∧
    s'.received_ = false ∧ s'.timeout_ = false ∧
    s'.evt_timeout_ = s.evt_timeout_ ∧ s'.end_evt_ = s.end_evt_ ∧
    s'.EVENTS_PAYLOAD = false ∧ s'.EVENTS_ADDRESS = false ∧ s'.EVENTS_DISABLED = false ∧
    ((receive.buffer ≠ 0 ∧ receive.size ≥ 2) ∨ receive.empty = true) := by
  unfold schedule_advertisment_and_receive at h
  split_ifs at h with _ hr ht _ hb hz
  · cases hf : frequency_from_channel channel with
    | error e => simp [hf] at h
    | ok f =>
      simp only [hf] at h
      cases h
      simp_all
  · cases hf : frequency_from_channel channel with
    | error e => simp [hf] at h
    | ok f =>
      simp only [hf] at h
      split_ifs at h with hr
      · cases h
        simp_all
      · cases h
        simp_all

/-- C5: the advertising timeout scenario. After an accepted call with a receive buffer
that is not empty, once the transmission has started (at once, or with the timer compare
event when the call left `adv_transmitting_pending`), the events DISABLED, timer compare,
DISABLED take the state from `adv_transmitting` to `adv_receiving`, with compare 0 armed
at the captured counter plus 312 microseconds and the receiver enabled, then to
`adv_timeout_stopping` with the radio disable requested, then to `idle` with the timeout
flag set, the received flag clear and every radio and timer interrupt disabled. -/
theorem advertising_timeout_scenario (cbs : adv_callbacks) (s s1 : machine) (channel : Nat)
    (transmit : write_buffer) (when : delta_time) (receive : read_buffer)
    (compare0_seen : Bool) (c : Nat)
    (h : schedule_advertisment_and_receive s channel transmit when receive compare0_seen
          = .ok s1)
    (hne : receive.empty = false) :
    ∃ s2 s3 s4 s5 : machine,
      s2 = (if s1.state_ = state.adv_transmitting_pending then timer_compare_event s1
            else s1) ∧
      s3 = radio_disabled_event cbs (timer_at c s2) ∧
      s4 = timer_compare_event s3 ∧
      s5 = radio_disabled_event cbs s4 ∧
      s2.state_ = state.adv_transmitting ∧
      s3.state_ = state.adv_receiving ∧
      s3.CC0 = (c + (152 + 40 + 120)) % 2 ^ 32 ∧
      s3.TIMER_INTEN.COMPARE0 = true ∧
      s3.radio_tasks = s2.radio_tasks ++ [radio_task.RXEN] ∧
      s4.state_ = state.adv_timeout_stopping ∧
      s4.radio_tasks = s3.radio_tasks ++ [radio_task.DISABLE] ∧
      s5.state_ = state.idle ∧
      s5.timeout_ = true ∧ s5.received_ = false ∧
      s5.RADIO_INTEN = radio_inten_none ∧ s5.TIMER_INTEN = timer_inten_none := by
  obtain ⟨hst, hbuf, hrec, hto, -, -, hp, ha, hd, hacc⟩ :=
    schedule_accepted s s1 channel transmit when receive compare0_seen h
  have hb : receive.buffer ≠ 0 := by
    rcases hacc with hacc | hacc
    · exact hacc.1
    · simp [hne] at hacc
  have hnemp : s1.receive_buffer_.empty = false := by
    simp [hbuf, read_buffer.empty, hb]
  refine ⟨_, _, _, _, rfl, rfl, rfl, rfl, ?_⟩
  rcases hst with hst | hst
  · simp [hst, radio_disabled_event, timer_compare_event, timer_at, radio_interrupt,
      radio_interrupt_payload, radio_interrupt_disabled, radio_interrupt_address,
      timer_interrupt, hp, ha, hnemp, hrec, adv_reponse_timeout_us, two32]
  · simp [hst, radio_disabled_event, timer_compare_event, timer_at, radio_interrupt,
      radio_interrupt_payload, radio_interrupt_disabled, radio_interrupt_address,
      timer_interrupt, hp, ha, hnemp, hrec, adv_reponse_timeout_us, two32]

/-- Witness for C5: the scenario on `pending_example`, whose transmission ends when the
timer shows 376. -/
theorem advertising_timeout_scenario_witness :
    schedule_advertisment_and_receive (timer_at 200 constructed) 37
        ⟨0x20000100, 20⟩ ⟨1000⟩ ⟨0x20000200, 40⟩ false = .ok pending_example ∧
    read_buffer.empty ⟨0x20000200, 40⟩ = false ∧
    ∃ s2 s3 s4 s5 : machine,
      s2 = (if pending_example.state_ = state.adv_transmitting_pending then
              timer_compare_event pending_example
            else pending_example) ∧
      s3 = radio_disabled_event (constant_callbacks ⟨0, 0⟩ ⟨0, 0⟩) (timer_at 376 s2) ∧
      s4 = timer_compare_event s3 ∧
      s5 = radio_disabled_event (constant_callbacks ⟨0, 0⟩ ⟨0, 0⟩) s4 ∧
      s2.state_ = state.adv_transmitting ∧
      s3.state_ = state.adv_receiving ∧
      s3.CC0 = (376 + (152 + 40 + 120)) % 2 ^ 32 ∧
      s3.TIMER_INTEN.COMPARE0 = true ∧
      s3.radio_tasks = s2.radio_tasks ++ [radio_task.RXEN] ∧
      s4.state_ = state.adv_timeout_stopping ∧
      s4.radio_tasks = s3.radio_tasks ++ [radio_task.DISABLE] ∧
      s5.state_ = state.idle ∧
      s5.timeout_ = true ∧ s5.received_ = false ∧
      s5.RADIO_INTEN = radio_inten_none ∧ s5.TIMER_INTEN = timer_inten_none :=
  ⟨rfl, by decide,
    advertising_timeout_scenario (constant_callbacks ⟨0, 0⟩ ⟨0, 0⟩)
      (timer_at 200 constructed) pending_example 37 ⟨0x20000100, 20⟩ ⟨1000⟩
      ⟨0x20000200, 40⟩ false 376 rfl (by decide)⟩

/-- C6: when the DISABLED event is handled in state `adv_receiving`, the anchor offset
stored afterwards is the address capture register plus `36 * 8 = 288` microseconds in 32
bit arithmetic, whatever the CRC status is. -/
theorem adv_receiving_anchor_offset (cbs : adv_callbacks) (s : machine) (T1 : Nat)
    (hs : s.state_ = state.adv_receiving) (he : s.EVENTS_DISABLED = true)
    (hT : s.CC1 = T1) :
    (radio_interrupt cbs s).anchor_offset_.usec = (T1 + 36 * 8) % 2 ^ 32 ∧
    (radio_interrupt cbs s).anchor_offset_.usec = (T1 + 288) % 2 ^ 32 := by
  cases hp : s.EVENTS_PAYLOAD <;> cases ha : s.EVENTS_ADDRESS <;>
    cases hc : s.CRCSTATUS_CRCOk <;>
    simp [radio_interrupt, radio_interrupt_payload, radio_interrupt_disabled,
      radio_interrupt_address, hs, he, hp, ha, hc, hT, delta_time.usec,
      connect_request_size, two32]

/-- Witness for C6: with the address captured at 566 microseconds the anchor offset is
854 microseconds. -/
theorem adv_receiving_anchor_offset_witness :
    response_example.state_ = state.adv_receiving ∧
    response_example.EVENTS_DISABLED = true ∧
    response_example.CC1 = 566 ∧
    (radio_interrupt (constant_callbacks ⟨0, 0⟩ ⟨0, 0⟩) response_example).anchor_offset_.usec
      = (566 + 36 * 8) % 2 ^ 32 :=
  ⟨by decide, by decide, by decide,
    (adv_receiving_anchor_offset (constant_callbacks ⟨0, 0⟩ ⟨0, 0⟩) response_example 566
      (by decide) (by decide) (by decide)).1⟩

/-- C7 as stated fails: with the address captured at 1000 microseconds the anchor offset
stored by the DISABLED handler in `evt_wait_connect` is 960, which is not
`1000 - (1 + 4) * 8 - 138 = 822`, also not modulo `2 ^ 32`. -/
theorem evt_anchor_offset_is_not_minus_startup_time :
    first_exchange_example.state_ = state.evt_wait_connect ∧
    first_exchange_example.CC1 = 1000 ∧
    (radio_interrupt (constant_callbacks ⟨0x20000300, 10⟩ ⟨0, 0⟩)
        first_exchange_example).anchor_offset_.usec = 960 ∧
    ((radio_interrupt (constant_callbacks ⟨0x20000300, 10⟩ ⟨0, 0⟩)
        first_exchange_example).anchor_offset_.usec : Int)
      ≠ ((first_exchange_example.CC1 : Int) - (1 + 4) * 8 - 138) % 2 ^ 32 := by
  decide

/-- C7 amended: when the DISABLED event is handled in state `evt_wait_connect`, the
anchor offset stored afterwards is the address capture register minus
`(1 + 4) * 8 = 40` microseconds in 32 bit arithmetic; the receiver start up time is not
subtracted. -/
theorem evt_wait_connect_anchor_offset (cbs : adv_callbacks) (s : machine) (T2 : Nat)
    (hs : s.state_ = state.evt_wait_connect) (he : s.EVENTS_DISABLED = true)
    (hT : s.CC1 = T2) :
    ((radio_interrupt cbs s).anchor_offset_.usec : Int)
      = ((T2 : Int) - (1 + 4) * 8) % 2 ^ 32 := by
  have key : (((T2 + (4294967296 - 40)) % 4294967296 : Nat) : Int)
      = ((T2 : Int) - (1 + 4) * 8) % 2 ^ 32 := by
    omega
  cases hp : s.EVENTS_PAYLOAD <;> cases ha : s.EVENTS_ADDRESS <;>
    cases hc : s.CRCSTATUS_CRCOk <;> cases hb : s.receive_buffer_.empty <;>
    simp [radio_interrupt, radio_interrupt_payload, radio_interrupt_disabled,
      radio_interrupt_address, radio_interrupt_evt_received, hs, he, hp, ha, hc, hb, hT,
      delta_time.usec, us_from_packet_start_to_address_end, two32] <;>
    exact_mod_cast key

/-- Witness for C7 amended: with the address captured at 1000 microseconds the anchor
offset is `1000 - 40`. -/
theorem evt_wait_connect_anchor_offset_witness :
    first_exchange_example.state_ = state.evt_wait_connect ∧
    first_exchange_example.EVENTS_DISABLED = true ∧
    first_exchange_example.CC1 = 1000 ∧
    ((radio_interrupt (constant_callbacks ⟨0x20000300, 10⟩ ⟨0, 0⟩)
        first_exchange_example).anchor_offset_.usec : Int)
      = ((1000 : Nat) - (1 + 4) * 8) % 2 ^ 32 :=
  ⟨by decide, by decide, by decide,
    evt_wait_connect_anchor_offset (constant_callbacks ⟨0x20000300, 10⟩ ⟨0, 0⟩)
      first_exchange_example 1000 (by decide) (by decide) (by decide)⟩

/-- C8: when the DISABLED event is handled in `evt_wait_connect` or `evt_receiving`: with
the CRC status OK, `received_data` is invoked with the stored receive buffer exactly when
that buffer is not empty and the CRC failure counter becomes 0; with the CRC status not
OK, `received_data` is not invoked and the counter grows by exactly 1; in both cases
`next_transmit` is invoked exactly once afterwards, the state becomes
`evt_transmiting_closing` and no result flag changes. -/
theorem evt_disabled_delivers_and_fetches (cbs : adv_callbacks) (s : machine)
    (hs : s.state_ = state.evt_wait_connect ∨ s.state_ = state.evt_receiving)
    (he : s.EVENTS_DISABLED = true) :
    (s.CRCSTATUS_CRCOk = true →
      (radio_interrupt cbs s).calls = s.calls ++
        (if s.receive_buffer_.empty then [] else [callback.received_data s.receive_buffer_])
        ++ [callback.next_transmit] ∧
      (radio_interrupt cbs s).crc_reveice_failure_ = 0) ∧
    (s.CRCSTATUS_CRCOk = false →
      (radio_interrupt cbs s).calls = s.calls ++ [callback.next_transmit] ∧
      (radio_interrupt cbs s).crc_reveice_failure_ = s.crc_reveice_failure_ + 1) ∧
    (radio_interrupt cbs s).state_ = state.evt_transmiting_closing ∧
    (radio_interrupt cbs s).received_ = s.received_ ∧
    (radio_interrupt cbs s).timeout_ = s.timeout_ ∧
    (radio_interrupt cbs s).evt_timeout_ = s.evt_timeout_ ∧
    (radio_interrupt cbs s).end_evt_ = s.end_evt_ := by
  rcases hs with hs | hs <;>
    cases hp : s.EVENTS_PAYLOAD <;> cases ha : s.EVENTS_ADDRESS <;>
    cases hc : s.CRCSTATUS_CRCOk <;> cases hb : s.receive_buffer_.empty <;>
    simp [radio_interrupt, radio_interrupt_payload, radio_interrupt_disabled,
      radio_interrupt_address, radio_interrupt_evt_received, hs, he, hp, ha, hc, hb]

/-- Witness for C8: the first exchange of `first_exchange_example` has a valid CRC and a
receive buffer, so the buffer is delivered before the next PDU is fetched. -/
theorem evt_disabled_delivers_and_fetches_witness :
    first_exchange_example.state_ = state.evt_wait_connect ∧
    first_exchange_example.EVENTS_DISABLED = true ∧
    (radio_interrupt (constant_callbacks ⟨0x20000300, 10⟩ ⟨0, 0⟩)
        first_exchange_example).state_ = state.evt_transmiting_closing :=
  ⟨by decide, by decide,
    (evt_disabled_delivers_and_fetches (constant_callbacks ⟨0x20000300, 10⟩ ⟨0, 0⟩)
      first_exchange_example (Or.inl (by decide)) (by decide)).2.2.1⟩

/-- What every accepted `start_connection_event` leaves behind: the state is
`evt_wait_connect`, the CRC failure counter is 0, the stored receive buffer is the
argument, the four result flags are unchanged, and two compare registers of the timer are
programmed with their pending events cleared: compare 0, which the PPI connects to the
receiver enable task, holds `start_receive + anchor_offset - 138` and compare 1 holds
`end_receive + anchor_offset + 1000`, both modulo `2 ^ 32`. No interrupt of the timer is
enabled and the PPI channel from compare 1 to the radio disable task is as the call found
it. -/
theorem start_connection_event_effect (s s' : machine) (channel : Nat)
    (start_receive end_receive : delta_time) (receive_buffer : read_buffer)
    (h : start_connection_event s channel start_receive end_receive receive_buffer
          = .ok s') :
    s'.state_ = state.evt_wait_connect ∧
    s'.crc_reveice_failure_ = 0 ∧
    s'.receive_buffer_ = receive_buffer ∧
    s'.received_ = s.received_ ∧ s'.timeout_ = s.timeout_ ∧
    s'.evt_timeout_ = s.evt_timeout_ ∧ s'.end_evt_ = s.end_evt_ ∧
    (s'.CC0 : Int)
      = ((start_receive.usec : Int) + (s.anchor_offset_.usec : Int) - 138) % 2 ^ 32 ∧
    (s'.CC1 : Int)
      = ((end_receive.usec : Int) + (s.anchor_offset_.usec : Int) + 1000) % 2 ^ 32 ∧
    s'.EVENTS_COMPARE0 = false ∧ s'.EVENTS_COMPARE1 = false ∧
    s'.PPI_CHEN.compare0_rxen = true ∧
    s'.TIMER_INTEN = timer_inten_none ∧
    s'.PPI_CHEN.compare1_disable = s.PPI_CHEN.compare1_disable := by
  unfold start_connection_event at h
  split_ifs at h
  cases hf : frequency_from_channel channel with
  | error e => simp [hf] at h
  | ok f =>
    simp only [hf] at h
    cases h
    simp only [two32, us_radio_rx_startup_time, true_and, and_true]
    constructor
    · omega
    · omega

/-- C9, the code at the failing input: the `start_connection_event` of
`connection_example`, with a receive window from 0 to 1000 microseconds and an anchor
offset of 0, is accepted and leaves the state `evt_wait_connect`, the CRC failure counter
0, the receive buffer stored and the four result flags as they were. Compare 0 holds
`0 + 0 - 138` modulo `2 ^ 32` and is armed: PPI channel 21 connects it to the receiver
enable task. Compare 1 holds `1000 + 0 + 1000` with its pending event cleared, but it is
not armed: no interrupt of the timer is enabled and PPI channel 22, from compare 1 to the
radio disable task, is off. -/
theorem start_connection_event_leaves_compare1_unarmed :
    start_connection_event constructed 5 ⟨0⟩ ⟨1000⟩ ⟨0x20000200, 40⟩
      = .ok connection_example ∧
    connection_example.state_ = state.evt_wait_connect ∧
    connection_example.crc_reveice_failure_ = 0 ∧
    connection_example.receive_buffer_ = ⟨0x20000200, 40⟩ ∧
    connection_example.received_ = constructed.received_ ∧
    connection_example.timeout_ = constructed.timeout_ ∧
    connection_example.evt_timeout_ = constructed.evt_timeout_ ∧
    connection_example.end_evt_ = constructed.end_evt_ ∧
    constructed.anchor_offset_ = ⟨0⟩ ∧
    connection_example.CC0 = 4294967296 - 138 ∧
    connection_example.EVENTS_COMPARE0 = false ∧
    connection_example.PPI_CHEN.compare0_rxen = true ∧
    connection_example.CC1 = 2000 ∧
    connection_example.EVENTS_COMPARE1 = false ∧
    connection_example.TIMER_INTEN = timer_inten_none ∧
    connection_example.PPI_CHEN.compare1_disable = false :=
  ⟨rfl, by decide, by decide, by decide, by decide, by decide, by decide, by decide,
    by decide, by decide, by decide, by decide, by decide, by decide, by decide, by decide⟩

/-- Facts about an accepted `start_connection_event` used by the scenarios. -/
theorem start_connection_event_accepted (s s' : machine) (channel : Nat)
    (start_receive end_receive : delta_time) (receive_buffer : read_buffer)
    (h : start_connection_event s channel start_receive end_receive receive_buffer
          = .ok s') :
    s'.state_ = state.evt_wait_connect ∧
    s'.received_ = s.received_ ∧ s'.timeout_ = s.timeout_ ∧
    s'.evt_timeout_ = s.evt_timeout_ ∧ s'.end_evt_ = s.end_evt_ ∧
    s'.EVENTS_ADDRESS = false ∧ s'.EVENTS_DISABLED = false ∧
    s'.EVENTS_PAYLOAD = s.EVENTS_PAYLOAD := by
  unfold start_connection_event at h
  split_ifs at h
  cases hf : frequency_from_channel channel with
  | error e => simp [hf] at h
  | ok f =>
    simp only [hf] at h
    cases h
    simp

/-- C10: a connection event completes with exactly one `end_event`. From the state left
by an accepted `start_connection_event`, the first DISABLED event (whatever CRC status
and address capture the hardware shows) moves the state to `evt_transmiting_closing`
without changing a result flag; the second DISABLED event moves the state to `idle`, sets
the `end_event` flag, leaves the other three flags as they were and disables every radio
and timer interrupt. -/
theorem connection_event_ends_once (cbs : adv_callbacks) (s s1 : machine) (channel : Nat)
    (start_receive end_receive : delta_time) (receive_buffer : read_buffer)
    (crc_ok : Bool) (capture : Nat)
    (h : start_connection_event s channel start_receive end_receive receive_buffer
          = .ok s1) :
    ∃ s2 s3 : machine,
      s2 = radio_disabled_event cbs { s1 with CRCSTATUS_CRCOk := crc_ok, CC1 := capture } ∧
      s3 = radio_disabled_event cbs s2 ∧
      s2.state_ = state.evt_transmiting_closing ∧
      s2.received_ = s.received_ ∧ s2.timeout_ = s.timeout_ ∧
      s2.evt_timeout_ = s.evt_timeout_ ∧ s2.end_evt_ = s.end_evt_ ∧
      s3.state_ = state.idle ∧
      s3.end_evt_ = true ∧
      s3.received_ = s.received_ ∧ s3.timeout_ = s.timeout_ ∧
      s3.evt_timeout_ = s.evt_timeout_ ∧
      s3.RADIO_INTEN = radio_inten_none ∧ s3.TIMER_INTEN = timer_inten_none := by
  obtain ⟨hst, hr, ht, hev, hen, ha, -, -⟩ :=
    start_connection_event_accepted s s1 channel start_receive end_receive receive_buffer h
  refine ⟨_, _, rfl, rfl, ?_⟩
  cases hp : s1.EVENTS_PAYLOAD <;> cases crc_ok <;> cases hb : s1.receive_buffer_.empty <;>
    simp [radio_disabled_event, radio_interrupt, radio_interrupt_payload,
      radio_interrupt_disabled, radio_interrupt_address, radio_interrupt_evt_received,
      hst, hr, ht, hev, hen, ha, hp, hb]

/-- Witness for C10: the connection event of `connection_example` with a valid first
PDU whose address was captured at 1000 microseconds. -/
theorem connection_event_ends_once_witness :
    start_connection_event constructed 5 ⟨0⟩ ⟨1000⟩ ⟨0x20000200, 40⟩
      = .ok connection_example ∧
    ∃ s2 s3 : machine,
      s2 = radio_disabled_event (constant_callbacks ⟨0x20000300, 10⟩ ⟨0, 0⟩)
            { connection_example with CRCSTATUS_CRCOk := true, CC1 := 1000 } ∧
      s3 = radio_disabled_event (constant_callbacks ⟨0x20000300, 10⟩ ⟨0, 0⟩) s2 ∧
      s2.state_ = state.evt_transmiting_closing ∧
      s2.received_ = constructed.received_ ∧ s2.timeout_ = constructed.timeout_ ∧
      s2.evt_timeout_ = constructed.evt_timeout_ ∧ s2.end_evt_ = constructed.end_evt_ ∧
      s3.state_ = state.idle ∧
      s3.end_evt_ = true ∧
      s3.received_ = constructed.received_ ∧ s3.timeout_ = constructed.timeout_ ∧
      s3.evt_timeout_ = constructed.evt_timeout_ ∧
      s3.RADIO_INTEN = radio_inten_none ∧ s3.TIMER_INTEN = timer_inten_none :=
  ⟨rfl,
    connection_event_ends_once (constant_callbacks ⟨0x20000300, 10⟩ ⟨0, 0⟩) constructed
      connection_example 5 ⟨0⟩ ⟨1000⟩ ⟨0x20000200, 40⟩ true 1000 rfl⟩

/-- C11: for every channel below 40, `frequency_from_channel` returns `4 + 2 * c` when
`c ≤ 10`, `6 + 2 * c` when `11 ≤ c ≤ 36`, 2 for channel 37, 26 for channel 38 and 80 for
channel 39. -/
theorem frequency_from_channel_table (c : Nat) (hc : c < 40) :
    (c ≤ 10 → frequency_from_channel c = .ok (4 + 2 * c)) ∧
    (11 ≤ c ∧ c ≤ 36 → frequency_from_channel c = .ok (6 + 2 * c)) ∧
    (c = 37 → frequency_from_channel c = .ok 2) ∧
    (c = 38 → frequency_from_channel c = .ok 26) ∧
    (c = 39 → frequency_from_channel c = .ok 80) := by
  unfold frequency_from_channel
  refine ⟨?_, ?_, ?_, ?_, ?_⟩
  · intro h
    simp [hc, h]
  · intro h
    have h1 : ¬ c ≤ 10 := by omega
    simp [hc, h1, h.2]
  · intro h
    subst h
    simp
  · intro h
    subst h
    simp
  · intro h
    subst h
    simp

/-- Witness for C11: data channel 11 lies at frequency offset 28. -/
theorem frequency_from_channel_table_witness :
    11 < 40 ∧ frequency_from_channel 11 = .ok (6 + 2 * 11) :=
  ⟨by decide, (frequency_from_channel_table 11 (by decide)).2.1 (by decide)⟩

/-- C16 as stated fails: in `idle` with the `end_event` flag set,
`schedule_advertisment_and_receive` is accepted, and in `idle` with the `timeout` flag
set, `start_connection_event` is accepted. -/
theorem scheduling_accepted_with_pending_flag :
    end_reported_example.state_ = state.idle ∧ end_reported_example.end_evt_ = true ∧
    (∃ s', schedule_advertisment_and_receive end_reported_example 37 ⟨0x20000100, 20⟩ ⟨0⟩
        ⟨0x20000200, 40⟩ false = .ok s') ∧
    timeout_reported_example.state_ = state.idle ∧
    timeout_reported_example.timeout_ = true ∧
    (∃ s', start_connection_event timeout_reported_example 5 ⟨0⟩ ⟨1000⟩ ⟨0x20000200, 40⟩
        = .ok s') :=
  ⟨by decide, by decide, ⟨_, rfl⟩, by decide, by decide, ⟨_, rfl⟩⟩

/-- C16 amended: a scheduling call is only accepted from `idle`:
`schedule_advertisment_and_receive` and `start_connection_event` both fail their
precondition check whenever the state is not `idle`, and
`schedule_advertisment_and_receive` also whenever the `received` or the `timeout` flag is
set. -/
theorem scheduling_rejected_outside_idle (s : machine) (channel : Nat)
    (transmit : write_buffer) (when start_receive end_receive : delta_time)
    (receive : read_buffer) (compare0_seen : Bool) :
    ((s.state_ ≠ state.idle ∨ s.received_ = true ∨ s.timeout_ = true) →
      schedule_advertisment_and_receive s channel transmit when receive compare0_seen
        = .error .assertion_failed) ∧
    (s.state_ ≠ state.idle →
      start_connection_event s channel start_receive end_receive receive
        = .error .assertion_failed) := by
  refine ⟨?_, ?_⟩
  · intro h
    unfold schedule_advertisment_and_receive
    rcases h with h | h | h
    · split_ifs <;> rfl
    · split_ifs <;> rfl
    · split_ifs <;> rfl
  · intro h
    unfold start_connection_event
    split_ifs <;> rfl

/-- Witness for C16 amended: while the advertisement of `pending_example` waits for its
time, both scheduling calls are rejected. -/
theorem scheduling_rejected_outside_idle_witness :
    pending_example.state_ ≠ state.idle ∧
    schedule_advertisment_and_receive pending_example 37 ⟨0x20000100, 20⟩ ⟨0⟩
      ⟨0x20000200, 40⟩ false = .error .assertion_failed ∧
    start_connection_event pending_example 37 ⟨0⟩ ⟨1000⟩ ⟨0x20000200, 40⟩
      = .error .assertion_failed :=
  ⟨by decide,
    (scheduling_rejected_outside_idle pending_example 37 ⟨0x20000100, 20⟩ ⟨0⟩ ⟨0⟩ ⟨1000⟩
      ⟨0x20000200, 40⟩ false).1 (Or.inl (by decide)),
    (scheduling_rejected_outside_idle pending_example 37 ⟨0x20000100, 20⟩ ⟨0⟩ ⟨0⟩ ⟨1000⟩
      ⟨0x20000200, 40⟩ false).2 (by decide)⟩

/-- C17: for every accepted `schedule_advertisment_and_receive`: when `when` is zero the
state becomes `adv_transmitting`, the transmit task is started in the call and the
interrupt enables of the timer are left as they were; when `when` is not zero and the
timer has not yet reached it, the state becomes `adv_transmitting_pending`, compare 0
holds `when.usec()`, the compare 0 interrupt is enabled, the call and any radio interrupt
after it start no task and keep the state, and the timer compare event then moves the
state to `adv_transmitting` and starts the transmit task. -/
theorem schedule_advertisment_now_or_pending (cbs : adv_callbacks) (s s' : machine)
    (channel : Nat) (transmit : write_buffer) (when : delta_time) (receive : read_buffer)
    (compare0_seen : Bool)
    (h : schedule_advertisment_and_receive s channel transmit when receive compare0_seen
          = .ok s') :
    (when.zero = true →
      s'.state_ = state.adv_transmitting ∧
      s'.radio_tasks = s.radio_tasks ++ [radio_task.TXEN] ∧
      s'.TIMER_INTEN = s.TIMER_INTEN) ∧
    (when.zero = false → compare0_seen = false → s.counter < when.usec →
      s'.state_ = state.adv_transmitting_pending ∧
      s'.CC0 = when.usec ∧
      s'.TIMER_INTEN.COMPARE0 = true ∧
      s'.radio_tasks = s.radio_tasks ∧
      (∀ p d a : Bool,
        (radio_interrupt cbs
          { s' with EVENTS_PAYLOAD := p, EVENTS_DISABLED := d, EVENTS_ADDRESS := a }).state_
            = state.adv_transmitting_pending ∧
        (radio_interrupt cbs
          { s' with EVENTS_PAYLOAD := p, EVENTS_DISABLED := d, EVENTS_ADDRESS := a }).radio_tasks
            = s.radio_tasks) ∧
      (timer_compare_event s').state_ = state.adv_transmitting ∧
      (timer_compare_event s').radio_tasks = s.radio_tasks ++ [radio_task.TXEN]) := by
  unfold schedule_advertisment_and_receive at h
  split_ifs at h with _ _ _ _ _ hz
  · cases hf : frequency_from_channel channel with
    | error e => simp [hf] at h
    | ok f =>
      simp only [hf] at h
      cases h
      simp [hz]
  · cases hf : frequency_from_channel channel with
    | error e => simp [hf] at h
    | ok f =>
      simp only [hf] at h
      split_ifs at h with hr
      · cases h
        refine ⟨fun hz' => absurd hz' hz, ?_⟩
        intro _ hc hlt
        rcases hr with hr | hr
        · simp [hc] at hr
        · exact absurd hr (by simp only [ge_iff_le, not_le]; exact hlt)
      · cases h
        refine ⟨fun hz' => absurd hz' hz, ?_⟩
        intro _ _ _
        refine ⟨rfl, rfl, rfl, rfl, ?_, ?_, ?_⟩
        · intro p d a
          cases p <;> cases d <;> cases a <;>
            simp [radio_interrupt, radio_interrupt_payload, radio_interrupt_disabled,
              radio_interrupt_address]
        · simp [timer_compare_event, timer_interrupt]
        · simp [timer_compare_event, timer_interrupt]

/-- Witness for C17: the advertisement of `pending_example` is due at 1000 microseconds
and scheduled at 200. -/
theorem schedule_advertisment_now_or_pending_witness :
    schedule_advertisment_and_receive (timer_at 200 constructed) 37
        ⟨0x20000100, 20⟩ ⟨1000⟩ ⟨0x20000200, 40⟩ false = .ok pending_example ∧
    pending_example.state_ = state.adv_transmitting_pending ∧
    pending_example.CC0 = 1000 :=
  ⟨rfl,
    ((schedule_advertisment_now_or_pending (constant_callbacks ⟨0, 0⟩ ⟨0, 0⟩)
      (timer_at 200 constructed) pending_example 37 ⟨0x20000100, 20⟩ ⟨1000⟩
      ⟨0x20000200, 40⟩ false rfl).2 (by decide) rfl (by decide)).1,
    ((schedule_advertisment_now_or_pending (constant_callbacks ⟨0, 0⟩ ⟨0, 0⟩)
      (timer_at 200 constructed) pending_example 37 ⟨0x20000100, 20⟩ ⟨1000⟩
      ⟨0x20000200, 40⟩ false rfl).2 (by decide) rfl (by decide)).2.1⟩

/-- C18, the code at the failing input: after the accepted `start_connection_event` of
`connection_example` the state is `evt_wait_connect`, no interrupt of the timer is
enabled and the PPI channel from compare 1 to the radio disable task is off; a timer
interrupt, whether for compare 0 or compare 1, leaves the state `evt_wait_connect` and
raises no flag, and `run` waits for ever. -/
theorem connection_event_receive_without_watchdog :
    start_connection_event constructed 5 ⟨0⟩ ⟨1000⟩ ⟨0x20000200, 40⟩
      = .ok connection_example ∧
    connection_example.state_ = state.evt_wait_connect ∧
    connection_example.TIMER_INTEN = timer_inten_none ∧
    connection_example.PPI_CHEN.compare1_disable = false ∧
    (timer_interrupt { connection_example with
        EVENTS_COMPARE0 := true, EVENTS_COMPARE1 := true }).state_
      = state.evt_wait_connect ∧
    (timer_interrupt { connection_example with
        EVENTS_COMPARE0 := true, EVENTS_COMPARE1 := true }).evt_timeout_ = false ∧
    (timer_interrupt { connection_example with
        EVENTS_COMPARE0 := true, EVENTS_COMPARE1 := true }).timeout_ = false ∧
    (timer_interrupt { connection_example with
        EVENTS_COMPARE0 := true, EVENTS_COMPARE1 := true }).radio_tasks = [] ∧
    run (timer_interrupt { connection_example with
        EVENTS_COMPARE0 := true, EVENTS_COMPARE1 := true }) = .error .waits_forever :=
  ⟨rfl, by decide, by decide, by decide, by decide, by decide, by decide, by decide, rfl⟩

/-- The PAYLOAD block of the radio interrupt changes neither the state nor a flag nor
the DISABLED event. -/
theorem radio_interrupt_payload_frame (s : machine) :
    (radio_interrupt_payload s).state_ = s.state_ ∧
    (radio_interrupt_payload s).received_ = s.received_ ∧
    (radio_interrupt_payload s).timeout_ = s.timeout_ ∧
    (radio_interrupt_payload s).evt_timeout_ = s.evt_timeout_ ∧
    (radio_interrupt_payload s).end_evt_ = s.end_evt_ := by
  unfold radio_interrupt_payload
  simp only
  split_ifs <;> simp

/-- The ADDRESS block of the radio interrupt changes neither the state nor a flag. -/
theorem radio_interrupt_address_frame (s : machine) :
    (radio_interrupt_address s).state_ = s.state_ ∧
    (radio_interrupt_address s).received_ = s.received_ ∧
    (radio_interrupt_address s).timeout_ = s.timeout_ ∧
    (radio_interrupt_address s).evt_timeout_ = s.evt_timeout_ ∧
    (radio_interrupt_address s).end_evt_ = s.end_evt_ := by
  unfold radio_interrupt_address
  simp only
  split_ifs <;> simp

/-- The DISABLED block of the radio interrupt either keeps all four flags, or it ends in
`idle` and has set exactly one of `received`, `timeout` and `end_event`. -/
theorem radio_interrupt_disabled_flags (cbs : adv_callbacks) (s : machine) :
    ((radio_interrupt_disabled cbs s).received_ = s.received_ ∧
      (radio_interrupt_disabled cbs s).timeout_ = s.timeout_ ∧
      (radio_interrupt_disabled cbs s).evt_timeout_ = s.evt_timeout_ ∧
      (radio_interrupt_disabled cbs s).end_evt_ = s.end_evt_) ∨
    ((radio_interrupt_disabled cbs s).state_ = state.idle ∧
      (radio_interrupt_disabled cbs s).evt_timeout_ = s.evt_timeout_ ∧
      (((radio_interrupt_disabled cbs s).received_ = true ∧
          (radio_interrupt_disabled cbs s).timeout_ = s.timeout_ ∧
          (radio_interrupt_disabled cbs s).end_evt_ = s.end_evt_) ∨
       ((radio_interrupt_disabled cbs s).received_ = s.received_ ∧
          (radio_interrupt_disabled cbs s).timeout_ = true ∧
          (radio_interrupt_disabled cbs s).end_evt_ = s.end_evt_) ∨
       ((radio_interrupt_disabled cbs s).received_ = s.received_ ∧
          (radio_interrupt_disabled cbs s).timeout_ = s.timeout_ ∧
          (radio_interrupt_disabled cbs s).end_evt_ = true))) := by
  by_cases he : s.EVENTS_DISABLED = true
  · cases hst : s.state_ <;> cases hb : s.receive_buffer_.empty <;>
      cases hc : s.CRCSTATUS_CRCOk <;>
      simp [radio_interrupt_disabled, radio_interrupt_evt_received, he, hst, hb, hc]
  · simp [radio_interrupt_disabled, he]

/-- C19: result flags are only raised in `idle`. For every machine state, a radio
interrupt that sets a result flag that was clear before leaves the state `idle` and sets
at most one such flag; a timer interrupt sets none. -/
theorem flags_raised_only_in_idle (cbs : adv_callbacks) (s : machine) :
    (0 < raised_flags s (radio_interrupt cbs s) →
      (radio_interrupt cbs s).state_ = state.idle) ∧
    raised_flags s (radio_interrupt cbs s) ≤ 1 ∧
    raised_flags s (timer_interrupt s) = 0 := by
  have hr : ∀ a b c d : Bool, ([!a && a, !b && b, !c && c, !d && d].filter id).length = 0 := by
    decide
  have h1 : ∀ a b c d : Bool,
      ([!a && true, !b && b, !c && c, !d && d].filter id).length ≤ 1 := by decide
  have h2 : ∀ a b c d : Bool,
      ([!a && a, !b && true, !c && c, !d && d].filter id).length ≤ 1 := by decide
  have h3 : ∀ a b c d : Bool,
      ([!a && a, !b && b, !c && c, !d && true].filter id).length ≤ 1 := by decide
  obtain ⟨ps, pr, pt, pe, pn⟩ := radio_interrupt_payload_frame s
  obtain ⟨as, ar, at', ae, an⟩ :=
    radio_interrupt_address_frame (radio_interrupt_disabled cbs (radio_interrupt_payload s))
  have hd := radio_interrupt_disabled_flags cbs (radio_interrupt_payload s)
  rw [pr, pt, pe, pn] at hd
  refine ⟨?_, ?_, ?_⟩
  · intro hpos
    unfold radio_interrupt raised_flags at *
    rw [ar, at', ae, an] at hpos
    rw [as]
    rcases hd with ⟨e1, e2, e3, e4⟩ | ⟨hidle, -, -⟩
    · rw [e1, e2, e3, e4, hr] at hpos
      exact absurd hpos (by decide)
    · exact hidle
  · unfold radio_interrupt raised_flags
    rw [ar, at', ae, an]
    rcases hd with ⟨e1, e2, e3, e4⟩ | ⟨-, e3, ⟨e1, e2, e4⟩ | ⟨e1, e2, e4⟩ | ⟨e1, e2, e4⟩⟩
    · rw [e1, e2, e3, e4, hr]
      exact Nat.zero_le _
    · rw [e1, e2, e3, e4]
      exact h1 _ _ _ _
    · rw [e1, e2, e3, e4]
      exact h2 _ _ _ _
    · rw [e1, e2, e3, e4]
      exact h3 _ _ _ _
  · unfold timer_interrupt raised_flags
    simp only
    split_ifs <;> exact hr _ _ _ _

/-- Witness for C19: the DISABLED event of `response_example` raises the `received` flag
and ends in `idle`. -/
theorem flags_raised_only_in_idle_witness :
    0 < raised_flags response_example
      (radio_interrupt (constant_callbacks ⟨0, 0⟩ ⟨0, 0⟩) response_example) ∧
    (radio_interrupt (constant_callbacks ⟨0, 0⟩ ⟨0, 0⟩) response_example).state_
      = state.idle :=
  ⟨by decide,
    (flags_raised_only_in_idle (constant_callbacks ⟨0, 0⟩ ⟨0, 0⟩) response_example).1
      (by decide)⟩

/-- C20: when `run` finds the `received` flag set, the buffer it passes to `adv_received`
starts where the stored receive buffer starts and has the size
`min(stored size, (second byte of the buffer & 0x3f) + 2)`, which is neither larger than
the stored size nor larger than the declared length of the PDU plus the 2 header
bytes. -/
theorem run_clamps_received_buffer (s : machine)
    (hrec : s.received_ = true)
    (hradio : s.RADIO_STATE_Disabled = true)
    (htimer : s.TIMER_INTEN = timer_inten_none)
    (hptr : s.PACKETPTR = s.receive_buffer_.buffer) :
    (∃ s' later, run s = .ok s' ∧
      s'.calls = s.calls ++ callback.adv_received
        ⟨s.receive_buffer_.buffer,
          min s.receive_buffer_.size
            ((s.mem (s.receive_buffer_.buffer + 1) &&& 0x3f) + 2)⟩ :: later ∧
      s'.receive_buffer_ =
        ⟨s.receive_buffer_.buffer,
          min s.receive_buffer_.size
            ((s.mem (s.receive_buffer_.buffer + 1) &&& 0x3f) + 2)⟩) ∧
    min s.receive_buffer_.size ((s.mem (s.receive_buffer_.buffer + 1) &&& 0x3f) + 2)
      ≤ s.receive_buffer_.size ∧
    min s.receive_buffer_.size ((s.mem (s.receive_buffer_.buffer + 1) &&& 0x3f) + 2)
      ≤ (s.mem (s.receive_buffer_.buffer + 1) &&& 0x3f) + 2 := by
  refine ⟨?_, Nat.min_le_left _ _, Nat.min_le_right _ _⟩
  unfold run
  cases h2 : s.timeout_ <;> cases h3 : s.evt_timeout_ <;> cases h4 : s.end_evt_ <;>
    simp [hrec, hradio, htimer, hptr, h2, h3, h4]

/-- Witness for C20: a PDU of declared length 34 in a buffer of 40 bytes is handed over
with 36 bytes. -/
theorem run_clamps_received_buffer_witness :
    received_example.received_ = true ∧
    (∃ s' later, run received_example = .ok s' ∧
      s'.calls = received_example.calls ++ callback.adv_received
        ⟨received_example.receive_buffer_.buffer,
          min received_example.receive_buffer_.size
            ((received_example.mem (received_example.receive_buffer_.buffer + 1) &&& 0x3f)
              + 2)⟩ :: later ∧
      s'.receive_buffer_ =
        ⟨received_example.receive_buffer_.buffer,
          min received_example.receive_buffer_.size
            ((received_example.mem (received_example.receive_buffer_.buffer + 1) &&& 0x3f)
              + 2)⟩) ∧
    min received_example.receive_buffer_.size
        ((received_example.mem (received_example.receive_buffer_.buffer + 1) &&& 0x3f) + 2)
      = 36 :=
  ⟨by decide,
    (run_clamps_received_buffer received_example (by decide) (by decide) (by decide)
      (by decide)).1,
    by decide⟩

end nrf51_details

namespace link_layer

/-! ## Theorems about the channel map -/

/-- After a reset the map marks exactly the channels that the bitmap marks. -/
theorem is_used_after_reset (b : List Nat) (c : Nat) :
    ((List.range max_number_of_data_channels).map (channel_used b)).getD c false
      = channel_used b c := by
  by_cases hc : c < max_number_of_data_channels
  · simp [List.getD_eq_getElem?_getD, hc]
  · have hnone : (List.range max_number_of_data_channels)[c]? = none := by
      apply List.getElem?_eq_none
      simpa using hc
    simp [List.getD_eq_getElem?_getD, hc, channel_used, hnone]

/-- Every entry of the remap table is a used channel. -/
theorem remap_table_entry_used (b : List Nat) (i : Nat)
    (hi : i < ((List.range max_number_of_data_channels).filter (channel_used b)).length) :
    channel_used b (((List.range max_number_of_data_channels).filter (channel_used b)).getD i 0)
      = true := by
  rw [List.getD_eq_getElem _ _ hi]
  have := List.getElem_mem hi
  exact (List.mem_filter.mp this).2

/-- The remap table is not empty when the bitmap marks a channel. -/
theorem remap_table_nonempty (b : List Nat) (c : Nat) (hc : channel_used b c = true) :
    0 < ((List.range max_number_of_data_channels).filter (channel_used b)).length := by
  have hmem : c ∈ (List.range max_number_of_data_channels).filter (channel_used b) := by
    rw [List.mem_filter]
    refine ⟨?_, hc⟩
    simp [channel_used] at hc
    simp [hc.1]
  exact List.length_pos_of_mem hmem

/-- The map that a reset with a valid hop increment builds. -/
theorem reset_accepted (m : channel_map) (b : List Nat) (hop : Nat)
    (hhop : 5 ≤ hop ∧ hop ≤ 16) :
    m.reset b hop =
      (true,
        { hop_increment := hop
          used_channels := (List.range max_number_of_data_channels).map (channel_used b)
          remap_table := (List.range max_number_of_data_channels).filter (channel_used b) }) := by
  have hno : ¬ (hop < 5 ∨ 16 < hop) := by omega
  simp [channel_map.reset, hno]

/-- The channel selection on a map built by reset, in terms of the bitmap. -/
theorem next_channel_after_reset (b : List Nat) (hop last : Nat) :
    channel_map.next_channel
        { hop_increment := hop
          used_channels := (List.range max_number_of_data_channels).map (channel_used b)
          remap_table := (List.range max_number_of_data_channels).filter (channel_used b) }
        last
      = if channel_used b ((last + hop) % 37) then (last + hop) % 37
        else ((List.range 37).filter (channel_used b)).getD
          (((last + hop) % 37) % ((List.range 37).filter (channel_used b)).length) 0 := by
  simp only [channel_map.next_channel, channel_map.is_used, is_used_after_reset]
  rfl

/-- C12: for every hop increment in [5,16] and every bitmap that marks at least one of the
37 data channels as used, `reset` succeeds and afterwards `next_channel(last)` is a channel
that the bitmap, and the map, marks as used, for every `last` in [0,36]; it is
`(last + hop) mod 37` when that candidate is used and otherwise the entry number
`candidate mod number_of_used_channels` of the remap table, which lists exactly the used
channels in ascending order. -/
theorem next_channel_is_used (m : channel_map) (channel_bitmap : List Nat) (hop last : Nat)
    (hhop : 5 ≤ hop ∧ hop ≤ 16)
    (hused : ∃ c, c < 37 ∧ channel_used channel_bitmap c = true)
    (_hlast : last ≤ 36) :
    (m.reset channel_bitmap hop).1 = true ∧
    channel_used channel_bitmap ((m.reset channel_bitmap hop).2.next_channel last) = true ∧
    (m.reset channel_bitmap hop).2.is_used
      ((m.reset channel_bitmap hop).2.next_channel last) = true ∧
    (channel_used channel_bitmap ((last + hop) % 37) = true →
      (m.reset channel_bitmap hop).2.next_channel last = (last + hop) % 37) ∧
    (channel_used channel_bitmap ((last + hop) % 37) = false →
      (m.reset channel_bitmap hop).2.remap_table[((last + hop) % 37) %
          (m.reset channel_bitmap hop).2.remap_table.length]?
        = some ((m.reset channel_bitmap hop).2.next_channel last)) ∧
    List.Pairwise (fun a b => a < b) (m.reset channel_bitmap hop).2.remap_table ∧
    (∀ c, c ∈ (m.reset channel_bitmap hop).2.remap_table ↔
      channel_used channel_bitmap c = true) := by
  obtain ⟨c, -, hc⟩ := hused
  have hpos := remap_table_nonempty channel_bitmap c hc
  have hidx : ((last + hop) % 37) %
      ((List.range max_number_of_data_channels).filter (channel_used channel_bitmap)).length
      < ((List.range max_number_of_data_channels).filter (channel_used channel_bitmap)).length :=
    Nat.mod_lt _ hpos
  have hsorted : List.Pairwise (fun a b => a < b)
      ((List.range max_number_of_data_channels).filter (channel_used channel_bitmap)) :=
    List.Pairwise.filter _ (List.pairwise_lt_range _)
  have hmem : ∀ c, c ∈ (List.range max_number_of_data_channels).filter
      (channel_used channel_bitmap) ↔ channel_used channel_bitmap c = true := by
    intro c
    rw [List.mem_filter]
    constructor
    · exact fun h => h.2
    · intro h
      refine ⟨?_, h⟩
      simp [channel_used] at h
      simp [h.1]
  have hentry := remap_table_entry_used channel_bitmap _ hidx
  have hget := List.getD_eq_getElem
    ((List.range max_number_of_data_channels).filter (channel_used channel_bitmap)) 0 hidx
  rw [reset_accepted m channel_bitmap hop hhop]
  simp only [next_channel_after_reset]
  refine ⟨trivial, ?_, ?_, ?_, ?_, hsorted, hmem⟩
  · split_ifs with hcand
    · exact hcand
    · exact hentry
  · show ((List.range max_number_of_data_channels).map (channel_used channel_bitmap)).getD _ false
      = true
    rw [is_used_after_reset]
    split_ifs with hcand
    · exact hcand
    · exact hentry
  · intro hcand
    simp [hcand]
  · intro hcand
    simp only [hcand]
    rw [List.getElem?_eq_getElem hidx]
    exact congrArg some hget.symm

/-- Witness for C12: with only the channels 1, 9 and 20 used and hop increment 7, the
channel after 0 is the remapped channel 9. -/
theorem next_channel_is_used_witness :
    (5 ≤ 7 ∧ 7 ≤ 16) ∧
    (∃ c, c < 37 ∧ channel_used sparse_channel_map c = true) ∧
    channel_used sparse_channel_map
      ((channel_map.reset (all_channel 5) sparse_channel_map 7).2.next_channel 0) = true :=
  ⟨by decide, ⟨1, by decide, by decide⟩,
    (next_channel_is_used (all_channel 5) sparse_channel_map 7 0 (by decide)
      ⟨1, by decide, by decide⟩ (by decide)).2.1⟩

/-- C13: with all 37 data channels marked used (bitmap `ff ff ff ff 1f`), for every hop
increment in [5,16] and every `last` in [0,36], `next_channel(last)` is
`(last + hop) mod 37`. -/
theorem all_channels_next_channel (m : channel_map) (hop last : Nat)
    (hhop : 5 ≤ hop ∧ hop ≤ 16) (_hlast : last ≤ 36) :
    (m.reset all_channel_map hop).1 = true ∧
    (m.reset all_channel_map hop).2.next_channel last = (last + hop) % 37 := by
  have hall : ∀ c, c < 37 → channel_used all_channel_map c = true := by decide
  rw [reset_accepted m all_channel_map hop hhop]
  simp only [next_channel_after_reset]
  refine ⟨trivial, ?_⟩
  rw [if_pos (hall _ (Nat.mod_lt _ (by decide)))]

/-- Witness for C13: the values that the tests `all_channels_hop_5`,
`all_channels_hop_16` and `all_channels_hop_10` check. -/
theorem all_channels_next_channel_witness :
    ((all_channel 5).next_channel 0 = 5 ∧ (all_channel 5).next_channel 7 = 12 ∧
      (all_channel 5).next_channel 35 = 3 ∧ (all_channel 5).next_channel 36 = 4) ∧
    ((all_channel 16).next_channel 0 = 16 ∧ (all_channel 16).next_channel 7 = 23 ∧
      (all_channel 16).next_channel 35 = 14 ∧ (all_channel 16).next_channel 36 = 15) ∧
    ((all_channel 10).next_channel 0 = 10 ∧ (all_channel 10).next_channel 7 = 17 ∧
      (all_channel 10).next_channel 35 = 8 ∧ (all_channel 10).next_channel 36 = 9) :=
  ⟨⟨(all_channels_next_channel ⟨0, [], []⟩ 5 0 (by decide) (by decide)).2,
    (all_channels_next_channel ⟨0, [], []⟩ 5 7 (by decide) (by decide)).2,
    (all_channels_next_channel ⟨0, [], []⟩ 5 35 (by decide) (by decide)).2,
    (all_channels_next_channel ⟨0, [], []⟩ 5 36 (by decide) (by decide)).2⟩,
   ⟨(all_channels_next_channel ⟨0, [], []⟩ 16 0 (by decide) (by decide)).2,
    (all_channels_next_channel ⟨0, [], []⟩ 16 7 (by decide) (by decide)).2,
    (all_channels_next_channel ⟨0, [], []⟩ 16 35 (by decide) (by decide)).2,
    (all_channels_next_channel ⟨0, [], []⟩ 16 36 (by decide) (by decide)).2⟩,
   ⟨(all_channels_next_channel ⟨0, [], []⟩ 10 0 (by decide) (by decide)).2,
    (all_channels_next_channel ⟨0, [], []⟩ 10 7 (by decide) (by decide)).2,
    (all_channels_next_channel ⟨0, [], []⟩ 10 35 (by decide) (by decide)).2,
    (all_channels_next_channel ⟨0, [], []⟩ 10 36 (by decide) (by decide)).2⟩⟩

/-- C14: `reset(map, hop)` returns true if and only if `5 ≤ hop ≤ 16`; on the bitmap of
the tests it is rejected for 0, 4, 17 and 99 and accepted for 5, 7, 10 and 16. -/
theorem reset_accepts_valid_hops_only (m : channel_map) (channel_bitmap : List Nat)
    (hop : Nat) :
    ((m.reset channel_bitmap hop).1 = true ↔ (5 ≤ hop ∧ hop ≤ 16)) ∧
    (m.reset all_channel_map 0).1 = false ∧ (m.reset all_channel_map 4).1 = false ∧
    (m.reset all_channel_map 17).1 = false ∧ (m.reset all_channel_map 99).1 = false ∧
    (m.reset all_channel_map 5).1 = true ∧ (m.reset all_channel_map 7).1 = true ∧
    (m.reset all_channel_map 10).1 = true ∧ (m.reset all_channel_map 16).1 = true := by
  refine ⟨?_, ?_⟩
  · unfold channel_map.reset
    split_ifs with h
    · simp only [Bool.false_eq_true, false_iff]
      omega
    · simp only [true_iff]
      omega
  · simp [channel_map.reset]

/-- C15: a `reset` with a hop increment outside [5,16] is rejected and leaves the map as
it was, so `next_channel(last)` is the same before and after it, for every `last`. -/
theorem rejected_reset_keeps_map (m : channel_map) (channel_bitmap : List Nat)
    (hop last : Nat) (hhop : hop < 5 ∨ 16 < hop) :
    (m.reset channel_bitmap hop).1 = false ∧
    (m.reset channel_bitmap hop).2 = m ∧
    (m.reset channel_bitmap hop).2.next_channel last = m.next_channel last := by
  simp [channel_map.reset, hhop]

/-- Witness for C15: after the rejected `reset` with hop increment 4 the map of
`all_channel< 5 >` still answers 3 for channel 35. -/
theorem rejected_reset_keeps_map_witness :
    (4 < 5 ∨ 16 < 4) ∧
    (channel_map.reset (all_channel 5) sparse_channel_map 4).1 = false ∧
    (channel_map.reset (all_channel 5) sparse_channel_map 4).2 = all_channel 5 ∧
    (channel_map.reset (all_channel 5) sparse_channel_map 4).2.next_channel 35
      = (all_channel 5).next_channel 35 :=
  ⟨by decide, rejected_reset_keeps_map (all_channel 5) sparse_channel_map 4 35 (by decide)⟩

end link_layer

namespace nrf51_details

/-! ## Further theorems about the radio scheduler -/

/-- An OR with a number whose low byte is clear keeps the low byte of the other side. -/
theorem low_byte_of_or (a b : Nat) (ha : a % 256 = 0) : (a ||| b) % 256 = b % 256 := by
  apply Nat.eq_of_testBit_eq
  intro i
  have h1 : (256 : Nat) = 2 ^ 8 := by norm_num
  rw [h1, Nat.testBit_mod_two_pow, Nat.testBit_mod_two_pow, Nat.testBit_or]
  by_cases hi : i < 8
  · have : a.testBit i = false := by
      have h2 : (a % 2 ^ 8).testBit i = false := by
        rw [← h1, ha]; simp
      rw [Nat.testBit_mod_two_pow] at h2
      simpa [hi] using h2
    simp [hi, this]
  · simp [hi]

/-- The mask for the bits 8 to 31 clears the low byte. -/
theorem and_upper_mask_mod (p : Nat) : (p &&& 0xFFFFFF00) % 256 = 0 := by
  apply Nat.eq_of_testBit_eq
  intro i
  have h1 : (256 : Nat) = 2 ^ 8 := by norm_num
  rw [h1, Nat.testBit_mod_two_pow, Nat.testBit_and]
  by_cases hi : i < 8
  · have : (0xFFFFFF00 : Nat).testBit i = false := by
      interval_cases i <;> rfl
    simp [hi, this]
  · simp [hi]

/-- After `PCNF1 = ( PCNF1 & ~RADIO_PCNF1_MAXLEN_Msk ) | ( size << RADIO_PCNF1_MAXLEN_Pos )`
the MAXLEN field holds the low byte of the size. -/
theorem pcnf1_with_maxlen_field (p x : Nat) :
    ((pcnf1_with_maxlen p x) &&& RADIO_PCNF1_MAXLEN_Msk) >>> RADIO_PCNF1_MAXLEN_Pos
      = x % 256 := by
  have hm : RADIO_PCNF1_MAXLEN_Msk = 2 ^ 8 - 1 := by decide
  have hx : (0xFFFFFFFF ^^^ RADIO_PCNF1_MAXLEN_Msk) = 0xFFFFFF00 := by decide
  unfold pcnf1_with_maxlen
  rw [hx, hm, Nat.and_pow_two_sub_one_eq_mod]
  simp only [RADIO_PCNF1_MAXLEN_Pos, Nat.shiftLeft_zero, Nat.shiftRight_zero]
  have h8 : (2:Nat) ^ 8 = 256 := by norm_num
  rw [h8, low_byte_of_or _ _ (and_upper_mask_mod p)]
  unfold two32
  omega

/-- The same assignment with a size below 256 leaves the bits 8 to 31 of `PCNF1` as they
are. -/
theorem pcnf1_with_maxlen_rest (p x : Nat) (hx : x < 256) :
    (pcnf1_with_maxlen p x) &&& 0xFFFFFF00 = p &&& 0xFFFFFF00 := by
  have hxor : (0xFFFFFFFF ^^^ RADIO_PCNF1_MAXLEN_Msk) = 0xFFFFFF00 := by decide
  unfold pcnf1_with_maxlen
  rw [hxor]
  simp only [RADIO_PCNF1_MAXLEN_Pos, Nat.shiftLeft_zero]
  have hx2 : x % two32 = x := by unfold two32; omega
  rw [hx2]
  apply Nat.eq_of_testBit_eq
  intro i
  simp only [Nat.testBit_and, Nat.testBit_or]
  by_cases hi : i < 8
  · have : (0xFFFFFF00 : Nat).testBit i = false := by
      interval_cases i <;> rfl
    simp [this]
  · have : x.testBit i = false := by
      apply Nat.testBit_lt_two_pow
      calc x < 256 := hx
        _ = 2 ^ 8 := by norm_num
        _ ≤ 2 ^ i := Nat.pow_le_pow_right (by norm_num) (by omega)
    simp [this]

/-- C21: every accepted `schedule_advertisment_and_receive` programs the packet pointer
with the transmit buffer and the maximum packet length with `min(transmit.size, 63)`,
which never exceeds 63 and is `transmit.size` whenever that is at most 63. -/
theorem schedule_advertisment_clamps_transmit_size (s s' : machine) (channel : Nat)
    (transmit : write_buffer) (when : delta_time) (receive : read_buffer)
    (compare0_seen : Bool)
    (h : schedule_advertisment_and_receive s channel transmit when receive compare0_seen
          = .ok s') :
    s'.PACKETPTR = transmit.buffer ∧
    s'.PCNF1_MAXLEN = min transmit.size 63 ∧
    s'.PCNF1_MAXLEN ≤ 63 ∧
    (transmit.size ≤ 63 → s'.PCNF1_MAXLEN = transmit.size) := by
  have hfield : ∀ p : Nat, ∀ t : machine,
      t.PCNF1 = pcnf1_with_maxlen p (min transmit.size 63) →
      t.PCNF1_MAXLEN = min transmit.size 63 := by
    intro p t ht
    unfold machine.PCNF1_MAXLEN
    rw [ht, pcnf1_with_maxlen_field]
    omega
  have key : s'.PACKETPTR = transmit.buffer ∧ s'.PCNF1_MAXLEN = min transmit.size 63 := by
    unfold schedule_advertisment_and_receive at h
    split_ifs at h with _ _ _ _ _ hz
    · cases hf : frequency_from_channel channel with
      | error e => simp [hf] at h
      | ok f =>
        simp only [hf] at h
        cases h
        exact ⟨rfl, hfield s.PCNF1 _ rfl⟩
    · cases hf : frequency_from_channel channel with
      | error e => simp [hf] at h
      | ok f =>
        simp only [hf] at h
        split_ifs at h with hr
        · cases h
          exact ⟨rfl, hfield s.PCNF1 _ rfl⟩
        · cases h
          exact ⟨rfl, hfield s.PCNF1 _ rfl⟩
  refine ⟨key.1, key.2, ?_, ?_⟩
  · rw [key.2]
    exact Nat.min_le_right _ _
  · intro hle
    rw [key.2]
    exact Nat.min_eq_left hle

/-- Witness for C21: a transmit buffer of 100 bytes is sent with a length of 63. -/
theorem schedule_advertisment_clamps_transmit_size_witness :
    (∃ s', schedule_advertisment_and_receive constructed 37 ⟨0x20000100, 100⟩ ⟨0⟩
        ⟨0x20000200, 40⟩ false = .ok s' ∧ s'.PCNF1_MAXLEN = min 100 63) :=
  ⟨_, rfl,
    (schedule_advertisment_clamps_transmit_size constructed _ 37 ⟨0x20000100, 100⟩ ⟨0⟩
      ⟨0x20000200, 40⟩ false rfl).2.1⟩

/-- C22: when the DISABLED event is handled in `evt_wait_connect` or `evt_receiving`, bit
`0x10` of the first byte of the PDU that `next_transmit` returned is cleared in memory,
the other seven bits of that byte keep their value and every other byte of the memory, so
every other byte of the PDU with the length in its header, is unchanged. The handler
holds the view `trans` by value and does not assign to it, so the size of the PDU is the
one that `next_transmit` returned; the PDU is programmed with that buffer, and with its
size as far as the 8 bits of the MAXLEN field hold it: the field receives the size modulo
256, and for a size below 256 the size itself while the other fields of `PCNF1` stay. -/
theorem evt_disabled_clears_more_data_flag (cbs : adv_callbacks) (s : machine)
    (trans : write_buffer)
    (hs : s.state_ = state.evt_wait_connect ∨ s.state_ = state.evt_receiving)
    (he : s.EVENTS_DISABLED = true)
    (ht : trans = cbs.next_transmit
      (if s.CRCSTATUS_CRCOk = true ∧ s.receive_buffer_.empty = false then
        s.calls ++ [callback.received_data s.receive_buffer_]
       else s.calls)) :
    (radio_interrupt cbs s).PACKETPTR = trans.buffer ∧
    (radio_interrupt cbs s).PCNF1_MAXLEN = trans.size % 256 ∧
    (trans.size < 256 →
      (radio_interrupt cbs s).PCNF1_MAXLEN = trans.size ∧
      (radio_interrupt cbs s).PCNF1 &&& 0xFFFFFF00 = s.PCNF1 &&& 0xFFFFFF00) ∧
    ((radio_interrupt cbs s).mem trans.buffer).testBit 4 = false ∧
    (∀ i, i < 8 → i ≠ 4 →
      ((radio_interrupt cbs s).mem trans.buffer).testBit i
        = (s.mem trans.buffer).testBit i) ∧
    (radio_interrupt cbs s).mem trans.buffer < 256 ∧
    (∀ a, a ≠ trans.buffer → (radio_interrupt cbs s).mem a = s.mem a) := by
  have hbits : ∀ x : Nat, (x &&& 239).testBit 4 = false ∧
      (∀ i, i < 8 → i ≠ 4 → (x &&& 239).testBit i = x.testBit i) ∧ x &&& 239 < 256 := by
    intro x
    refine ⟨?_, ?_, ?_⟩
    · rw [Nat.testBit_and]
      have : (239 : Nat).testBit 4 = false := by decide
      simp [this]
    · intro i hi hne
      rw [Nat.testBit_and]
      have : (239 : Nat).testBit i = true := by
        interval_cases i <;> first | rfl | exact absurd rfl hne
      simp [this]
    · exact lt_of_le_of_lt Nat.and_le_right (by decide)
  obtain ⟨hb4, hbo, hlt⟩ := hbits (s.mem trans.buffer)
  have hprog : (radio_interrupt cbs s).PACKETPTR = trans.buffer ∧
      (radio_interrupt cbs s).PCNF1 = pcnf1_with_maxlen s.PCNF1 trans.size ∧
      (radio_interrupt cbs s).mem
        = Function.update s.mem trans.buffer (s.mem trans.buffer &&& 239) := by
    subst ht
    rcases hs with hs | hs <;>
      cases hp : s.EVENTS_PAYLOAD <;> cases ha : s.EVENTS_ADDRESS <;>
      cases hc : s.CRCSTATUS_CRCOk <;> cases hb : s.receive_buffer_.empty <;>
      simp [radio_interrupt, radio_interrupt_payload, radio_interrupt_disabled,
        radio_interrupt_address, radio_interrupt_evt_received, hs, he, hp, ha, hc, hb,
        more_data_flag]
  obtain ⟨hptr, hreg, hmem⟩ := hprog
  have hlen : (radio_interrupt cbs s).PCNF1_MAXLEN = trans.size % 256 := by
    unfold machine.PCNF1_MAXLEN
    rw [hreg, pcnf1_with_maxlen_field]
  rw [hmem]
  refine ⟨hptr, hlen, ?_, ?_, ?_, ?_, ?_⟩
  · intro hsize
    refine ⟨?_, ?_⟩
    · rw [hlen]
      exact Nat.mod_eq_of_lt hsize
    · rw [hreg]
      exact pcnf1_with_maxlen_rest s.PCNF1 trans.size hsize
  · rw [Function.update_same]
    exact hb4
  · intro i hi hne
    rw [Function.update_same]
    exact hbo i hi hne
  · rw [Function.update_same]
    exact hlt
  · intro a hne
    exact Function.update_noteq hne _ _

/-- Witness for C22: in `more_data_example` the next PDU lies at 0x20000300 and has 10
bytes; its first byte `1b` becomes `0b` and its second byte stays. -/
theorem evt_disabled_clears_more_data_flag_witness :
    more_data_example.state_ = state.evt_wait_connect ∧
    more_data_example.EVENTS_DISABLED = true ∧
    more_data_example.mem 0x20000300 = 0x1b ∧
    (radio_interrupt (constant_callbacks ⟨0x20000300, 10⟩ ⟨0, 0⟩)
        more_data_example).PACKETPTR = 0x20000300 ∧
    (radio_interrupt (constant_callbacks ⟨0x20000300, 10⟩ ⟨0, 0⟩)
        more_data_example).PCNF1_MAXLEN = 10 ∧
    (radio_interrupt (constant_callbacks ⟨0x20000300, 10⟩ ⟨0, 0⟩)
        more_data_example).mem 0x20000300 = 0x0b ∧
    (radio_interrupt (constant_callbacks ⟨0x20000300, 10⟩ ⟨0, 0⟩)
        more_data_example).mem 0x20000301 = more_data_example.mem 0x20000301 :=
  ⟨by decide, by decide, by decide,
    (evt_disabled_clears_more_data_flag (constant_callbacks ⟨0x20000300, 10⟩ ⟨0, 0⟩)
      more_data_example ⟨0x20000300, 10⟩ (Or.inl (by decide)) (by decide) rfl).1,
    ((evt_disabled_clears_more_data_flag (constant_callbacks ⟨0x20000300, 10⟩ ⟨0, 0⟩)
      more_data_example ⟨0x20000300, 10⟩ (Or.inl (by decide)) (by decide) rfl).2.2.1
        (by decide)).1,
    by decide,
    (evt_disabled_clears_more_data_flag (constant_callbacks ⟨0x20000300, 10⟩ ⟨0, 0⟩)
      more_data_example ⟨0x20000300, 10⟩ (Or.inl (by decide)) (by decide) rfl).2.2.2.2.2.2
        0x20000301 (by decide)⟩

/-- C23: a channel of 40 or more is a precondition failure: `frequency_from_channel`
fails its assertion and returns no frequency, and `schedule_advertisment_and_receive` and
`start_connection_event` fail with it, whatever their other arguments are, so that the
radio is programmed for no such channel. -/
theorem channel_out_of_range_fails (s : machine) (channel : Nat)
    (transmit : write_buffer) (when start_receive end_receive : delta_time)
    (receive : read_buffer) (compare0_seen : Bool) (hc : 40 ≤ channel) :
    frequency_from_channel channel = .error .assertion_failed ∧
    schedule_advertisment_and_receive s channel transmit when receive compare0_seen
      = .error .assertion_failed ∧
    start_connection_event s channel start_receive end_receive receive
      = .error .assertion_failed := by
  have hf : frequency_from_channel channel = .error .assertion_failed := by
    unfold frequency_from_channel
    have : ¬ channel < 40 := by omega
    simp [this]
  refine ⟨hf, ?_, ?_⟩
  · unfold schedule_advertisment_and_receive
    split_ifs <;> simp [hf]
  · unfold start_connection_event
    split_ifs <;> simp [hf]

/-- Witness for C23: channel 40 is rejected on the constructed scheduler. -/
theorem channel_out_of_range_fails_witness :
    40 ≤ 40 ∧
    frequency_from_channel 40 = .error .assertion_failed ∧
    schedule_advertisment_and_receive constructed 40 ⟨0x20000100, 20⟩ ⟨0⟩
      ⟨0x20000200, 40⟩ false = .error .assertion_failed ∧
    start_connection_event constructed 40 ⟨0⟩ ⟨1000⟩ ⟨0x20000200, 40⟩
      = .error .assertion_failed :=
  ⟨by decide,
    channel_out_of_range_fails constructed 40 ⟨0x20000100, 20⟩ ⟨0⟩ ⟨0⟩ ⟨1000⟩
      ⟨0x20000200, 40⟩ false (by decide)⟩

/-- C27: the timer interrupt handler is idempotent: a second run right after the first
changes nothing, so the protocol state, the result flags, the interrupt enables and the
compare events of the timer are those after the first run, and the second run starts no
task of the radio. -/
theorem timer_interrupt_idempotent (s : machine) :
    (timer_interrupt (timer_interrupt s)).state_ = (timer_interrupt s).state_ ∧
    (timer_interrupt (timer_interrupt s)).received_ = (timer_interrupt s).received_ ∧
    (timer_interrupt (timer_interrupt s)).timeout_ = (timer_interrupt s).timeout_ ∧
    (timer_interrupt (timer_interrupt s)).evt_timeout_ = (timer_interrupt s).evt_timeout_ ∧
    (timer_interrupt (timer_interrupt s)).end_evt_ = (timer_interrupt s).end_evt_ ∧
    (timer_interrupt (timer_interrupt s)).TIMER_INTEN = (timer_interrupt s).TIMER_INTEN ∧
    (timer_interrupt (timer_interrupt s)).EVENTS_COMPARE0
      = (timer_interrupt s).EVENTS_COMPARE0 ∧
    (timer_interrupt (timer_interrupt s)).EVENTS_COMPARE1
      = (timer_interrupt s).EVENTS_COMPARE1 ∧
    (timer_interrupt (timer_interrupt s)).EVENTS_COMPARE2
      = (timer_interrupt s).EVENTS_COMPARE2 ∧
    (timer_interrupt (timer_interrupt s)).EVENTS_COMPARE3
      = (timer_interrupt s).EVENTS_COMPARE3 ∧
    (timer_interrupt (timer_interrupt s)).counter = (timer_interrupt s).counter ∧
    (timer_interrupt (timer_interrupt s)).radio_tasks = (timer_interrupt s).radio_tasks := by
  cases hst : s.state_ <;> simp [timer_interrupt, hst]

/-- C28: transmit only advertising. After an accepted call with an empty receive buffer,
once the transmission has started, the DISABLED event (with or without the PAYLOAD event
still pending) moves the state from `adv_transmitting` straight to `idle` and raises the
`timeout` flag while `received` stays clear; the handler starts no task of the radio, so
the receiver is not enabled and `adv_receiving` is not entered. -/
theorem transmit_only_advertising (cbs : adv_callbacks) (s s1 : machine) (channel : Nat)
    (transmit : write_buffer) (when : delta_time) (receive : read_buffer)
    (compare0_seen p : Bool)
    (h : schedule_advertisment_and_receive s channel transmit when receive compare0_seen
          = .ok s1)
    (hemp : receive.empty = true) :
    ∃ s2 s3 : machine,
      s2 = (if s1.state_ = state.adv_transmitting_pending then timer_compare_event s1
            else s1) ∧
      s3 = radio_disabled_event cbs { s2 with EVENTS_PAYLOAD := p } ∧
      s2.state_ = state.adv_transmitting ∧
      s3.state_ = state.idle ∧
      s3.timeout_ = true ∧ s3.received_ = false ∧
      s3.radio_tasks = s2.radio_tasks := by
  obtain ⟨hst, hbuf, hrec, hto, -, -, hp, ha, hd, -⟩ :=
    schedule_accepted s s1 channel transmit when receive compare0_seen h
  have hb : s1.receive_buffer_.empty = true := by
    simp only [read_buffer.empty, Bool.and_eq_true, beq_iff_eq] at hemp
    simp [hbuf, read_buffer.empty, hemp.1, hemp.2]
  refine ⟨_, _, rfl, rfl, ?_⟩
  rcases hst with hst | hst <;> cases p <;>
    simp [hst, radio_disabled_event, timer_compare_event, radio_interrupt,
      radio_interrupt_payload, radio_interrupt_disabled, radio_interrupt_address,
      timer_interrupt, ha, hb, hrec]

/-- Witness for C28: the advertisement of `late_example` has no receive buffer. -/
theorem transmit_only_advertising_witness :
    schedule_advertisment_and_receive (timer_at 5000 constructed) 37
        ⟨0x20000100, 20⟩ ⟨1000⟩ ⟨0, 0⟩ false = .ok late_example ∧
    read_buffer.empty ⟨0, 0⟩ = true ∧
    ∃ s2 s3 : machine,
      s2 = (if late_example.state_ = state.adv_transmitting_pending then
              timer_compare_event late_example
            else late_example) ∧
      s3 = radio_disabled_event (constant_callbacks ⟨0, 0⟩ ⟨0, 0⟩)
            { s2 with EVENTS_PAYLOAD := true } ∧
      s2.state_ = state.adv_transmitting ∧
      s3.state_ = state.idle ∧
      s3.timeout_ = true ∧ s3.received_ = false ∧
      s3.radio_tasks = s2.radio_tasks :=
  ⟨rfl, by decide,
    transmit_only_advertising (constant_callbacks ⟨0, 0⟩ ⟨0, 0⟩) (timer_at 5000 constructed)
      late_example 37 ⟨0x20000100, 20⟩ ⟨1000⟩ ⟨0, 0⟩ false true rfl (by decide)⟩

/-- A returning `run` keeps the state and invokes no `allocate_receive_buffer`. -/
theorem run_keeps_state (s s' : machine) (h : run s = .ok s') :
    s'.state_ = s.state_ ∧
    (callback.allocate_receive_buffer ∈ s'.calls →
      callback.allocate_receive_buffer ∈ s.calls) := by
  cases h1 : s.received_ <;> cases h2 : s.timeout_ <;> cases h3 : s.evt_timeout_ <;>
    cases h4 : s.end_evt_ <;> simp [run, h1, h2, h3, h4] at h <;>
    split_ifs at h <;>
    simp only [Except.ok.injEq] at h <;>
    subst h <;>
    simp

/-- An accepted scheduling of an advertisement leaves one of the two advertising states
and the log of callbacks as it was. -/
theorem schedule_advertisment_keeps_calls (s s' : machine) (channel : Nat)
    (transmit : write_buffer) (when : delta_time) (receive : read_buffer)
    (compare0_seen : Bool)
    (h : schedule_advertisment_and_receive s channel transmit when receive compare0_seen
          = .ok s') :
    (s'.state_ = state.adv_transmitting ∨ s'.state_ = state.adv_transmitting_pending) ∧
    s'.calls = s.calls := by
  unfold schedule_advertisment_and_receive at h
  split_ifs at h with _ _ _ _ _ hz
  · cases hf : frequency_from_channel channel with
    | error e => simp [hf] at h
    | ok f =>
      simp only [hf] at h
      cases h
      simp
  · cases hf : frequency_from_channel channel with
    | error e => simp [hf] at h
    | ok f =>
      simp only [hf] at h
      split_ifs at h with hr
      · cases h
        simp
      · cases h
        simp

/-- An accepted start of a connection event leaves the state `evt_wait_connect` and the
log of callbacks as it was. -/
theorem start_connection_event_keeps_calls (s s' : machine) (channel : Nat)
    (start_receive end_receive : delta_time) (receive_buffer : read_buffer)
    (h : start_connection_event s channel start_receive end_receive receive_buffer
          = .ok s') :
    s'.state_ = state.evt_wait_connect ∧ s'.calls = s.calls := by
  unfold start_connection_event at h
  split_ifs at h
  cases hf : frequency_from_channel channel with
  | error e => simp [hf] at h
  | ok f =>
    simp only [hf] at h
    cases h
    simp

/-- A radio interrupt outside `evt_receiving` and `evt_transmiting` ends outside these
two states and invokes no `allocate_receive_buffer`. -/
theorem radio_interrupt_avoids_evt_receiving (cbs : adv_callbacks) (s : machine)
    (h1 : s.state_ ≠ state.evt_receiving) (h2 : s.state_ ≠ state.evt_transmiting) :
    (radio_interrupt cbs s).state_ ≠ state.evt_receiving ∧
    (radio_interrupt cbs s).state_ ≠ state.evt_transmiting ∧
    (callback.allocate_receive_buffer ∈ (radio_interrupt cbs s).calls →
      callback.allocate_receive_buffer ∈ s.calls) := by
  cases hst : s.state_ <;> cases hp : s.EVENTS_PAYLOAD <;> cases hd : s.EVENTS_DISABLED <;>
    cases ha : s.EVENTS_ADDRESS <;> cases hc : s.CRCSTATUS_CRCOk <;>
    cases hb : s.receive_buffer_.empty <;>
    simp_all [radio_interrupt, radio_interrupt_payload, radio_interrupt_disabled,
      radio_interrupt_address, radio_interrupt_evt_received]

/-- A timer interrupt outside `evt_receiving` and `evt_transmiting` ends outside these two
states and invokes no callback. -/
theorem timer_interrupt_avoids_evt_receiving (s : machine)
    (h1 : s.state_ ≠ state.evt_receiving) (h2 : s.state_ ≠ state.evt_transmiting) :
    (timer_interrupt s).state_ ≠ state.evt_receiving ∧
    (timer_interrupt s).state_ ≠ state.evt_transmiting ∧
    (timer_interrupt s).calls = s.calls := by
  cases hst : s.state_ <;> simp_all [timer_interrupt]

/-- C30: the states `evt_receiving` and `evt_transmiting` are unreachable. In every state
that the constructed scheduler gets into by accepted scheduling calls, calls of `run`,
radio interrupts and timer interrupts, the state is neither `evt_receiving` nor
`evt_transmiting` and `allocate_receive_buffer` has not been invoked. -/
theorem evt_receiving_unreachable (cbs : adv_callbacks) (s : machine)
    (h : reachable cbs s) :
    s.state_ ≠ state.evt_receiving ∧ s.state_ ≠ state.evt_transmiting ∧
    callback.allocate_receive_buffer ∉ s.calls := by
  induction h with
  | constructed hw h =>
    simp [scheduled_radio_base, h]
  | hardware hv s _ ih =>
    exact ih
  | schedule_advertisment s s' channel transmit when receive seen _ h ih =>
    obtain ⟨hst, hcalls⟩ :=
      schedule_advertisment_keeps_calls s s' channel transmit when receive seen h
    refine ⟨?_, ?_, ?_⟩
    · rcases hst with hst | hst <;> simp [hst]
    · rcases hst with hst | hst <;> simp [hst]
    · rw [hcalls]
      exact ih.2.2
  | connection_event s s' channel start_receive end_receive receive_buffer _ h ih =>
    obtain ⟨hst, hcalls⟩ :=
      start_connection_event_keeps_calls s s' channel start_receive end_receive
        receive_buffer h
    refine ⟨by simp [hst], by simp [hst], ?_⟩
    rw [hcalls]
    exact ih.2.2
  | run s s' _ h ih =>
    obtain ⟨hst, hcalls⟩ := run_keeps_state s s' h
    exact ⟨hst ▸ ih.1, hst ▸ ih.2.1, fun hmem => ih.2.2 (hcalls hmem)⟩
  | radio s _ ih =>
    obtain ⟨h1, h2, h3⟩ := radio_interrupt_avoids_evt_receiving cbs s ih.1 ih.2.1
    exact ⟨h1, h2, fun hmem => ih.2.2 (h3 hmem)⟩
  | timer s _ ih =>
    obtain ⟨h1, h2, h3⟩ := timer_interrupt_avoids_evt_receiving s ih.1 ih.2.1
    exact ⟨h1, h2, h3 ▸ ih.2.2⟩

/-- Witness for C30: the state `connection_example` is reachable. -/
theorem evt_receiving_unreachable_witness :
    reachable (constant_callbacks ⟨0x20000300, 10⟩ ⟨0, 0⟩) connection_example ∧
    connection_example.state_ ≠ state.evt_receiving ∧
    connection_example.state_ ≠ state.evt_transmiting ∧
    callback.allocate_receive_buffer ∉ connection_example.calls :=
  ⟨reachable.connection_event constructed connection_example 5 ⟨0⟩ ⟨1000⟩ ⟨0x20000200, 40⟩
      (reachable.constructed reset_hardware rfl) rfl,
    evt_receiving_unreachable (constant_callbacks ⟨0x20000300, 10⟩ ⟨0, 0⟩) connection_example
      (reachable.connection_event constructed connection_example 5 ⟨0⟩ ⟨1000⟩
        ⟨0x20000200, 40⟩ (reachable.constructed reset_hardware rfl) rfl)⟩

end nrf51_details

namespace bluetoe

/-! ## Theorems about characteristic values -/

/-- What the copy loop of `fixed_value` leaves in the buffer. -/
theorem fixed_value_copy_data (Value : Nat) (count i output : Nat) (buffer : Nat → Nat)
    (k : Nat) :
    fixed_value.copy_data Value count i output buffer k
      = if output ≤ k ∧ k < output + count then (Value >>> (8 * (i + (k - output)))) &&& 0xff
        else buffer k := by
  induction count generalizing i output buffer with
  | zero =>
    have hk : ¬ (output ≤ k ∧ k < output + 0) := by omega
    rw [fixed_value.copy_data, if_neg hk]
  | succ n ih =>
    rw [fixed_value.copy_data, ih]
    by_cases h1 : output + 1 ≤ k ∧ k < output + 1 + n
    · have h2 : output ≤ k ∧ k < output + (n + 1) := by omega
      have h3 : i + 1 + (k - (output + 1)) = i + (k - output) := by omega
      rw [if_pos h1, if_pos h2, h3]
    · rw [if_neg h1]
      by_cases h4 : k = output
      · subst h4
        have h2 : k ≤ k ∧ k < k + (n + 1) := by omega
        rw [if_pos h2, Function.update_same]
        simp
      · have h2 : ¬ (output ≤ k ∧ k < output + (n + 1)) := by omega
        rw [if_neg h2, Function.update_noteq h4]

/-- C24: with the option `no_read_access` a characteristic value is not readable: every
read access to a `bind_characteristic_value` and every access to a `fixed_value` returns
`read_not_permitted` and leaves the arguments, so the output buffer and its size, and the
bound variable as they were, for every offset and buffer size. -/
theorem no_read_access_not_readable
    (attribute_value_read_access :
      attribute_access_arguments → (Nat → Nat) → Nat →
        attribute_access_result × attribute_access_arguments)
    (sizeof_T Value : Nat) (is_const : Bool) (Options : List characteristic_option)
    (value : Nat → Nat) (args : attribute_access_arguments)
    (hopt : has_option characteristic_option.no_read_access Options = true)
    (htype : args.type = attribute_access_type.read) :
    (bind_characteristic_value.characteristic_value_access attribute_value_read_access
        sizeof_T is_const Options value args).result
      = attribute_access_result.read_not_permitted ∧
    (bind_characteristic_value.characteristic_value_access attribute_value_read_access
        sizeof_T is_const Options value args).args = args ∧
    (bind_characteristic_value.characteristic_value_access attribute_value_read_access
        sizeof_T is_const Options value args).value = value ∧
    fixed_value.characteristic_value_access sizeof_T Value Options args
      = (attribute_access_result.read_not_permitted, args) := by
  simp [bind_characteristic_value.characteristic_value_access,
    bind_characteristic_value.characteristic_value_read_access,
    bind_characteristic_value.has_read_access, fixed_value.characteristic_value_access,
    fixed_value.has_read_access, hopt, htype]

/-- Witness for C24: a read of the variable `simple_value` with `no_read_access`. -/
theorem no_read_access_not_readable_witness :
    has_option characteristic_option.no_read_access [characteristic_option.no_read_access]
      = true ∧
    read_request.type = attribute_access_type.read ∧
    (bind_characteristic_value.characteristic_value_access example_read_access
        4 false [characteristic_option.no_read_access] simple_value read_request).result
      = attribute_access_result.read_not_permitted :=
  ⟨by decide, by decide,
    (no_read_access_not_readable example_read_access 4 0xaabbccdd false
      [characteristic_option.no_read_access] simple_value read_request (by decide)
      (by decide)).1⟩

/-- C25: with the option `no_write_access`, or with a const value type, a bound
characteristic value is not writeable: every write access returns `write_not_permitted`
and leaves the bound variable and the arguments as they were, for every offset, size and
payload. -/
theorem no_write_access_not_writeable
    (attribute_value_read_access :
      attribute_access_arguments → (Nat → Nat) → Nat →
        attribute_access_result × attribute_access_arguments)
    (sizeof_T : Nat) (is_const : Bool) (Options : List characteristic_option)
    (value : Nat → Nat) (args : attribute_access_arguments)
    (hopt : has_option characteristic_option.no_write_access Options = true ∨
      is_const = true)
    (htype : args.type = attribute_access_type.write) :
    (bind_characteristic_value.characteristic_value_access attribute_value_read_access
        sizeof_T is_const Options value args).result
      = attribute_access_result.write_not_permitted ∧
    (bind_characteristic_value.characteristic_value_access attribute_value_read_access
        sizeof_T is_const Options value args).value = value ∧
    (bind_characteristic_value.characteristic_value_access attribute_value_read_access
        sizeof_T is_const Options value args).args = args := by
  rcases hopt with hopt | hopt <;>
    simp [bind_characteristic_value.characteristic_value_access,
      bind_characteristic_value.characteristic_value_write_access,
      bind_characteristic_value.has_write_access, hopt, htype]

/-- Witness for C25: a write to the variable `simple_value` with `no_write_access`. -/
theorem no_write_access_not_writeable_witness :
    write_request.type = attribute_access_type.write ∧
    (bind_characteristic_value.characteristic_value_access example_read_access
        4 false [characteristic_option.no_write_access] simple_value write_request).result
      = attribute_access_result.write_not_permitted ∧
    (bind_characteristic_value.characteristic_value_access example_read_access
        4 false [characteristic_option.no_write_access] simple_value write_request).value
      = simple_value :=
  ⟨by decide,
    (no_write_access_not_writeable example_read_access 4 false
      [characteristic_option.no_write_access] simple_value write_request
      (Or.inl (by decide)) (by decide)).1,
    (no_write_access_not_writeable example_read_access 4 false
      [characteristic_option.no_write_access] simple_value write_request
      (Or.inl (by decide)) (by decide)).2.1⟩

/-- C26: a readable `fixed_value< T, Value >` reads as the little endian encoding of
`Value`. A read access with an offset of at most `sizeof( T )` succeeds, reports the size
`min(n, sizeof( T ) - o)`, leaves `(Value >> 8 * (o + k)) & 0xff`, which is byte `o + k` of
`Value` counted from the least significant one, in output byte `k` for every `k` below
the reported size and leaves the rest of the buffer; with a larger offset the result is
`invalid_offset` and nothing is changed. -/
theorem fixed_value_reads_little_endian (sizeof_T Value : Nat)
    (Options : List characteristic_option) (args : attribute_access_arguments)
    (hopt : has_option characteristic_option.no_read_access Options = false)
    (htype : args.type = attribute_access_type.read) :
    (args.buffer_offset ≤ sizeof_T →
      (fixed_value.characteristic_value_access sizeof_T Value Options args).1
        = attribute_access_result.success ∧
      (fixed_value.characteristic_value_access sizeof_T Value Options args).2.buffer_size
        = min args.buffer_size (sizeof_T - args.buffer_offset) ∧
      (fixed_value.characteristic_value_access sizeof_T Value Options args).2.buffer_offset
        = args.buffer_offset ∧
      (∀ k, k < min args.buffer_size (sizeof_T - args.buffer_offset) →
        (fixed_value.characteristic_value_access sizeof_T Value Options args).2.buffer k
          = (Value >>> (8 * (args.buffer_offset + k))) &&& 0xff ∧
        (fixed_value.characteristic_value_access sizeof_T Value Options args).2.buffer k
          = Value / 256 ^ (args.buffer_offset + k) % 256) ∧
      (∀ k, min args.buffer_size (sizeof_T - args.buffer_offset) ≤ k →
        (fixed_value.characteristic_value_access sizeof_T Value Options args).2.buffer k
          = args.buffer k)) ∧
    (sizeof_T < args.buffer_offset →
      fixed_value.characteristic_value_access sizeof_T Value Options args
        = (attribute_access_result.invalid_offset, args)) := by
  have hbyte : ∀ j : Nat, (Value >>> (8 * j)) &&& 0xff = Value / 256 ^ j % 256 := by
    intro j
    have h255 : (0xff : Nat) = 2 ^ 8 - 1 := by norm_num
    rw [h255, Nat.and_pow_two_sub_one_eq_mod, Nat.shiftRight_eq_div_pow, pow_mul]
    norm_num
  constructor
  · intro ho
    have hno : ¬ args.buffer_offset > sizeof_T := by omega
    simp only [fixed_value.characteristic_value_access, fixed_value.has_read_access, hopt,
      htype, hno, Bool.not_false, Bool.not_true, ne_eq, not_true_eq_false, if_false,
      Bool.false_eq_true, true_and]
    refine ⟨?_, ?_⟩
    · intro k hk
      have hk' : 0 ≤ k ∧ k < 0 + min args.buffer_size (sizeof_T - args.buffer_offset) := by
        omega
      rw [fixed_value_copy_data, if_pos hk', Nat.sub_zero]
      exact ⟨rfl, hbyte _⟩
    · intro k hk
      have hk' : ¬ (0 ≤ k ∧ k < 0 + min args.buffer_size (sizeof_T - args.buffer_offset)) := by
        omega
      rw [fixed_value_copy_data, if_neg hk']
  · intro ho
    simp [fixed_value.characteristic_value_access, fixed_value.has_read_access, hopt, htype,
      ho]

/-- Witness for C26: `fixed_uint32_value< 0xaabbccdd >` read from offset 0 into a buffer
of 20 bytes gives 4 bytes, the second of them `cc`. -/
theorem fixed_value_reads_little_endian_witness :
    has_option characteristic_option.no_read_access [] = false ∧
    read_request.type = attribute_access_type.read ∧
    (fixed_value.characteristic_value_access 4 0xaabbccdd [] read_request).1
      = attribute_access_result.success ∧
    (fixed_value.characteristic_value_access 4 0xaabbccdd [] read_request).2.buffer_size
      = min read_request.buffer_size (4 - read_request.buffer_offset) ∧
    (fixed_value.characteristic_value_access 4 0xaabbccdd [] read_request).2.buffer 1 = 0xcc :=
  ⟨by decide, by decide,
    ((fixed_value_reads_little_endian 4 0xaabbccdd [] read_request (by decide)
      (by decide)).1 (by decide)).1,
    ((fixed_value_reads_little_endian 4 0xaabbccdd [] read_request (by decide)
      (by decide)).1 (by decide)).2.1,
    by decide⟩

end bluetoe

namespace nrf51_details

/-! ## Theorems about the flags over all reachable states -/

/-- A returning `run` that finds `evt_timeout` clear leaves it clear and invokes no
`timeout`. -/
theorem run_keeps_evt_timeout (s s' : machine) (h : run s = .ok s')
    (he : s.evt_timeout_ = false) :
    s'.evt_timeout_ = false ∧
    (callback.timeout ∈ s'.calls → callback.timeout ∈ s.calls) := by
  cases h1 : s.received_ <;> cases h2 : s.timeout_ <;>
    cases h4 : s.end_evt_ <;> simp [run, h1, h2, he, h4] at h <;>
    split_ifs at h <;>
    simp only [Except.ok.injEq] at h <;>
    subst h <;>
    simp [he]

/-- A radio interrupt leaves `evt_timeout` as it is and invokes no `timeout`. -/
theorem radio_interrupt_keeps_evt_timeout (cbs : adv_callbacks) (s : machine) :
    (radio_interrupt cbs s).evt_timeout_ = s.evt_timeout_ ∧
    (callback.timeout ∈ (radio_interrupt cbs s).calls → callback.timeout ∈ s.calls) := by
  cases hst : s.state_ <;> cases hp : s.EVENTS_PAYLOAD <;> cases hd : s.EVENTS_DISABLED <;>
    cases ha : s.EVENTS_ADDRESS <;> cases hc : s.CRCSTATUS_CRCOk <;>
    cases hb : s.receive_buffer_.empty <;>
    simp [radio_interrupt, radio_interrupt_payload, radio_interrupt_disabled,
      radio_interrupt_address, radio_interrupt_evt_received, hst, hp, hd, ha, hc, hb]

/-- A timer interrupt changes no result flag and invokes no callback. -/
theorem timer_interrupt_keeps_flags (s : machine) :
    (timer_interrupt s).received_ = s.received_ ∧
    (timer_interrupt s).timeout_ = s.timeout_ ∧
    (timer_interrupt s).evt_timeout_ = s.evt_timeout_ ∧
    (timer_interrupt s).end_evt_ = s.end_evt_ ∧
    (timer_interrupt s).calls = s.calls ∧
    (timer_interrupt s).receive_buffer_ = s.receive_buffer_ := by
  cases hst : s.state_ <;> simp [timer_interrupt, hst]

/-- C31: the `evt_timeout` flag is never raised. In every state that the constructed
scheduler gets into by scheduling calls, calls of `run`, radio interrupts and timer
interrupts, `evt_timeout` is false and the callback `timeout` has not been invoked; and a
timer interrupt in `evt_wait_connect` changes neither the state nor a flag. -/
theorem evt_timeout_never_raised (cbs : adv_callbacks) (s : machine)
    (h : reachable cbs s) :
    s.evt_timeout_ = false ∧ callback.timeout ∉ s.calls ∧
    (s.state_ = state.evt_wait_connect →
      (timer_interrupt s).state_ = state.evt_wait_connect ∧
      (timer_interrupt s).received_ = s.received_ ∧
      (timer_interrupt s).timeout_ = s.timeout_ ∧
      (timer_interrupt s).evt_timeout_ = s.evt_timeout_ ∧
      (timer_interrupt s).end_evt_ = s.end_evt_) := by
  have hmain : s.evt_timeout_ = false ∧ callback.timeout ∉ s.calls := by
    induction h with
    | constructed hw h =>
      simp [scheduled_radio_base, h]
    | hardware hv s _ ih =>
      exact ih
    | schedule_advertisment s s' channel transmit when receive seen _ h ih =>
      obtain ⟨-, -, -, -, hev, -⟩ :=
        schedule_accepted s s' channel transmit when receive seen h
      obtain ⟨-, hcalls⟩ :=
        schedule_advertisment_keeps_calls s s' channel transmit when receive seen h
      exact ⟨hev.trans ih.1, hcalls ▸ ih.2⟩
    | connection_event s s' channel start_receive end_receive receive_buffer _ h ih =>
      obtain ⟨-, -, -, hev, -⟩ :=
        start_connection_event_accepted s s' channel start_receive end_receive
          receive_buffer h
      obtain ⟨-, hcalls⟩ :=
        start_connection_event_keeps_calls s s' channel start_receive end_receive
          receive_buffer h
      exact ⟨hev.trans ih.1, hcalls ▸ ih.2⟩
    | run s s' _ h ih =>
      obtain ⟨hev, hcalls⟩ := run_keeps_evt_timeout s s' h ih.1
      exact ⟨hev, fun hmem => ih.2 (hcalls hmem)⟩
    | radio s _ ih =>
      obtain ⟨hev, hcalls⟩ := radio_interrupt_keeps_evt_timeout cbs s
      exact ⟨hev.trans ih.1, fun hmem => ih.2 (hcalls hmem)⟩
    | timer s _ ih =>
      obtain ⟨-, -, hev, -, hcalls, -⟩ := timer_interrupt_keeps_flags s
      exact ⟨hev.trans ih.1, hcalls ▸ ih.2⟩
  refine ⟨hmain.1, hmain.2, ?_⟩
  intro hst
  obtain ⟨h1, h2, h3, h4, -, -⟩ := timer_interrupt_keeps_flags s
  refine ⟨?_, h1, h2, h3, h4⟩
  simp [timer_interrupt, hst]

/-- Witness for C31: the state `connection_example` is reachable and in
`evt_wait_connect`. -/
theorem evt_timeout_never_raised_witness :
    reachable (constant_callbacks ⟨0x20000300, 10⟩ ⟨0, 0⟩) connection_example ∧
    connection_example.evt_timeout_ = false ∧
    callback.timeout ∉ connection_example.calls :=
  ⟨reachable.connection_event constructed connection_example 5 ⟨0⟩ ⟨1000⟩ ⟨0x20000200, 40⟩
      (reachable.constructed reset_hardware rfl) rfl,
    (evt_timeout_never_raised (constant_callbacks ⟨0x20000300, 10⟩ ⟨0, 0⟩) connection_example
      (reachable.connection_event constructed connection_example 5 ⟨0⟩ ⟨1000⟩
        ⟨0x20000200, 40⟩ (reachable.constructed reset_hardware rfl) rfl)).1,
    (evt_timeout_never_raised (constant_callbacks ⟨0x20000300, 10⟩ ⟨0, 0⟩) connection_example
      (reachable.connection_event constructed connection_example 5 ⟨0⟩ ⟨1000⟩
        ⟨0x20000200, 40⟩ (reachable.constructed reset_hardware rfl) rfl)).2.1⟩

/-- C32 as stated fails: the state `overwritten_example` is reached from the constructed
scheduler by an accepted advertisement, two radio interrupts and an accepted
`start_connection_event`; its `received` flag is set and its stored receive buffer is
empty. -/
theorem received_flag_with_empty_buffer :
    reachable (constant_callbacks ⟨0, 0⟩ ⟨0, 0⟩) overwritten_example ∧
    overwritten_example.received_ = true ∧
    overwritten_example.receive_buffer_.empty = true ∧
    ¬ (2 ≤ overwritten_example.receive_buffer_.size) :=
  ⟨reachable.connection_event connect_request_example overwritten_example 5 ⟨0⟩ ⟨1000⟩
      ⟨0, 0⟩
      (reachable.radio _
        (reachable.hardware
          { hardware_of listening_example with
            EVENTS_DISABLED := true, CRCSTATUS_CRCOk := true }
          listening_example
          (reachable.radio _
            (reachable.hardware { hardware_of immediate_example with EVENTS_DISABLED := true }
              immediate_example
              (reachable.schedule_advertisment constructed immediate_example 38
                ⟨0x20000100, 20⟩ ⟨0⟩ ⟨0x20000200, 40⟩ false
                (reachable.constructed reset_hardware rfl) rfl)))))
      rfl,
    by decide, by decide, by decide⟩

/-- The invariant of the receive buffer survives the PAYLOAD block. -/
theorem radio_interrupt_payload_keeps_receive_buffer (s : machine)
    (h : receive_buffer_invariant s) :
    receive_buffer_invariant (radio_interrupt_payload s) := by
  unfold receive_buffer_invariant at h ⊢
  obtain ⟨h1, h2, h3, h4, h5⟩ := h
  cases hst : s.state_ <;> cases hp : s.EVENTS_PAYLOAD <;>
    simp_all [radio_interrupt_payload]

/-- The invariant of the receive buffer survives the ADDRESS block. -/
theorem radio_interrupt_address_keeps_receive_buffer (s : machine)
    (h : receive_buffer_invariant s) :
    receive_buffer_invariant (radio_interrupt_address s) := by
  unfold receive_buffer_invariant at h ⊢
  obtain ⟨h1, h2, h3, h4, h5⟩ := h
  cases hst : s.state_ <;> cases ha : s.EVENTS_ADDRESS <;>
    simp_all [radio_interrupt_address]

/-- The invariant of the receive buffer survives the DISABLED block. -/
theorem radio_interrupt_disabled_keeps_receive_buffer (cbs : adv_callbacks) (s : machine)
    (h : receive_buffer_invariant s) :
    receive_buffer_invariant (radio_interrupt_disabled cbs s) := by
  unfold receive_buffer_invariant at h ⊢
  obtain ⟨h1, h2, h3, h4, h5⟩ := h
  cases hst : s.state_ <;> cases hd : s.EVENTS_DISABLED <;>
    cases hc : s.CRCSTATUS_CRCOk <;> cases hb : s.receive_buffer_.empty <;>
    simp_all [radio_interrupt_disabled, radio_interrupt_evt_received]

/-- The invariant of the receive buffer survives a radio interrupt. -/
theorem radio_interrupt_keeps_receive_buffer (cbs : adv_callbacks) (s : machine)
    (h : receive_buffer_invariant s) : receive_buffer_invariant (radio_interrupt cbs s) := by
  unfold radio_interrupt
  exact radio_interrupt_address_keeps_receive_buffer _
    (radio_interrupt_disabled_keeps_receive_buffer cbs _
      (radio_interrupt_payload_keeps_receive_buffer s h))

/-- The invariant of the receive buffer survives a timer interrupt. -/
theorem timer_interrupt_keeps_receive_buffer (s : machine)
    (h : receive_buffer_invariant s) : receive_buffer_invariant (timer_interrupt s) := by
  unfold receive_buffer_invariant at h ⊢
  obtain ⟨h1, h2, h3, h4, h5⟩ := h
  cases hst : s.state_ <;> simp_all [timer_interrupt]

/-- The invariant of the receive buffer survives a returning `run`: the clamped length
is still at least 2 and at most the stored one. -/
theorem run_keeps_receive_buffer (s s' : machine) (h : run s = .ok s')
    (hinv : receive_buffer_invariant s) : receive_buffer_invariant s' := by
  unfold receive_buffer_invariant holds_advertising_pdu at hinv ⊢
  obtain ⟨i1, i2, i3, i4, i5⟩ := hinv
  cases h1 : s.received_ <;> cases h2 : s.timeout_ <;> cases h3 : s.evt_timeout_ <;>
    cases h4 : s.end_evt_ <;> simp [run, h1, h2, h3, h4] at h <;>
    split_ifs at h <;>
    simp only [Except.ok.injEq] at h <;>
    subst h <;>
    simp_all [read_buffer.empty]

/-- An accepted scheduling of an advertisement establishes the invariant of the receive
buffer: the stored buffer is the argument with its size cut down to 63. -/
theorem schedule_advertisment_sets_receive_buffer (s s' : machine) (channel : Nat)
    (transmit : write_buffer) (when : delta_time) (receive : read_buffer)
    (compare0_seen : Bool)
    (h : schedule_advertisment_and_receive s channel transmit when receive compare0_seen
          = .ok s') :
    receive_buffer_invariant s' := by
  obtain ⟨hst, hbuf, hrec, -, -, -, -, -, -, hacc⟩ :=
    schedule_accepted s s' channel transmit when receive compare0_seen h
  have hgood : s'.receive_buffer_.empty = true ∨ holds_advertising_pdu s'.receive_buffer_ := by
    rw [hbuf]
    rcases hacc with ⟨hb, hsz⟩ | hemp
    · right
      refine ⟨hb, ?_, ?_⟩
      · show 2 ≤ min receive.size maximum_advertising_pdu_size
        unfold maximum_advertising_pdu_size
        omega
      · show min receive.size maximum_advertising_pdu_size ≤ 63
        unfold maximum_advertising_pdu_size
        omega
    · left
      simp only [read_buffer.empty, Bool.and_eq_true, beq_iff_eq] at hemp
      simp [read_buffer.empty, hemp.1, hemp.2]
  unfold receive_buffer_invariant
  rcases hst with hst | hst
  · refine ⟨by simp [hst], by simp [hst], ?_, ?_, fun _ => hgood⟩
    · simp [hrec]
    · simp [hst]
  · refine ⟨by simp [hst], by simp [hst], ?_, ?_, fun _ => hgood⟩
    · simp [hrec]
    · simp [hst]

/-- An accepted start of a connection event with the `received` flag clear keeps the
invariant of the receive buffer. -/
theorem start_connection_event_keeps_receive_buffer (s s' : machine) (channel : Nat)
    (start_receive end_receive : delta_time) (receive_buffer : read_buffer)
    (hflag : s.received_ = false)
    (h : start_connection_event s channel start_receive end_receive receive_buffer
          = .ok s') :
    receive_buffer_invariant s' := by
  obtain ⟨hst, hrec, -⟩ :=
    start_connection_event_accepted s s' channel start_receive end_receive receive_buffer h
  unfold receive_buffer_invariant
  refine ⟨by simp [hst], by simp [hst], ?_, by simp [hst], by simp [hst]⟩
  simp [hrec, hflag]

/-- The invariant of the receive buffer holds in every state reached within the
contract. -/
theorem reachable_in_contract_invariant (cbs : adv_callbacks) (s : machine)
    (h : reachable_in_contract cbs s) : receive_buffer_invariant s := by
  induction h with
  | constructed hw h =>
    simp [receive_buffer_invariant, scheduled_radio_base]
  | hardware hv s _ ih =>
    exact ih
  | schedule_advertisment s s' channel transmit when receive seen _ h _ =>
    exact schedule_advertisment_sets_receive_buffer s s' channel transmit when receive seen h
  | connection_event s s' channel start_receive end_receive receive_buffer _ hflag h _ =>
    exact start_connection_event_keeps_receive_buffer s s' channel start_receive
      end_receive receive_buffer hflag h
  | run s s' _ h ih =>
    exact run_keeps_receive_buffer s s' h ih
  | radio s _ ih =>
    exact radio_interrupt_keeps_receive_buffer cbs s ih
  | timer s _ ih =>
    exact timer_interrupt_keeps_receive_buffer s ih

/-- C32 amended: as long as no connection event is started while the `received` flag is
pending, the read of the length byte in `run` is in bounds. In every state that the
constructed scheduler gets into by accepted calls of `schedule_advertisment_and_receive`,
accepted calls of `start_connection_event` made with the `received` flag clear, calls of
`run`, radio interrupts and timer interrupts, a set `received` flag comes with a stored
receive buffer that is not empty and has a size from 2 to 63. -/
theorem received_buffer_in_bounds (cbs : adv_callbacks) (s : machine)
    (h : reachable_in_contract cbs s) (hrec : s.received_ = true) :
    s.receive_buffer_.empty = false ∧ s.receive_buffer_.buffer ≠ 0 ∧
    2 ≤ s.receive_buffer_.size ∧ s.receive_buffer_.size ≤ 63 := by
  obtain ⟨-, -, h3, -, -⟩ := reachable_in_contract_invariant cbs s h
  obtain ⟨hb, hlo, hhi⟩ := h3 hrec
  refine ⟨?_, hb, hlo, hhi⟩
  simp [read_buffer.empty, hb]

/-- Witness for C32 amended: in `connect_request_example` the connect request lies in
the buffer of 40 bytes. -/
theorem received_buffer_in_bounds_witness :
    reachable_in_contract (constant_callbacks ⟨0, 0⟩ ⟨0, 0⟩) connect_request_example ∧
    connect_request_example.received_ = true ∧
    connect_request_example.receive_buffer_.empty = false ∧
    connect_request_example.receive_buffer_.buffer ≠ 0 ∧
    2 ≤ connect_request_example.receive_buffer_.size ∧
    connect_request_example.receive_buffer_.size ≤ 63 :=
  ⟨reachable_in_contract.radio _
      (reachable_in_contract.hardware
        { hardware_of listening_example with
          EVENTS_DISABLED := true, CRCSTATUS_CRCOk := true }
        listening_example
        (reachable_in_contract.radio _
          (reachable_in_contract.hardware
            { hardware_of immediate_example with EVENTS_DISABLED := true }
            immediate_example
            (reachable_in_contract.schedule_advertisment constructed immediate_example 38
              ⟨0x20000100, 20⟩ ⟨0⟩ ⟨0x20000200, 40⟩ false
              (reachable_in_contract.constructed reset_hardware rfl) rfl)))),
    by decide,
    received_buffer_in_bounds (constant_callbacks ⟨0, 0⟩ ⟨0, 0⟩) connect_request_example
      (reachable_in_contract.radio _
        (reachable_in_contract.hardware
          { hardware_of listening_example with
            EVENTS_DISABLED := true, CRCSTATUS_CRCOk := true }
          listening_example
          (reachable_in_contract.radio _
            (reachable_in_contract.hardware
              { hardware_of immediate_example with EVENTS_DISABLED := true }
              immediate_example
              (reachable_in_contract.schedule_advertisment constructed immediate_example 38
                ⟨0x20000100, 20⟩ ⟨0⟩ ⟨0x20000200, 40⟩ false
                (reachable_in_contract.constructed reset_hardware rfl) rfl)))))
      (by decide)⟩

/-- C33: `frequency_from_channel` is a bijection from the 40 channels onto the even
frequency offsets from 2 to 80: two different channels below 40 get different results,
every result is even and lies between 2 and 80, and every even offset between 2 and 80
is the result for some channel below 40. -/
theorem frequency_from_channel_bijective (c1 c2 : Nat) (h1 : c1 < 40) (h2 : c2 < 40) :
    (c1 ≠ c2 → frequency_from_channel c1 ≠ frequency_from_channel c2) ∧
    (∃ f, frequency_from_channel c1 = .ok f ∧ f % 2 = 0 ∧ 2 ≤ f ∧ f ≤ 80) ∧
    (∀ f, f % 2 = 0 → 2 ≤ f → f ≤ 80 → ∃ c, c < 40 ∧ frequency_from_channel c = .ok f) := by
  have hval : ∀ c, c < 40 → frequency_from_channel c
      = .ok (if c ≤ 10 then 4 + 2 * c else if c ≤ 36 then 6 + 2 * c
          else if c = 37 then 2 else if c = 38 then 26 else 80) := by
    intro c hc
    unfold frequency_from_channel
    have : ¬ ¬ c < 40 := by omega
    rw [if_neg this]
    split_ifs <;> rfl
  refine ⟨?_, ?_, ?_⟩
  · intro hne heq
    rw [hval c1 h1, hval c2 h2] at heq
    simp only [Except.ok.injEq] at heq
    split_ifs at heq <;> omega
  · rw [hval c1 h1]
    refine ⟨_, rfl, ?_⟩
    split_ifs <;> omega
  · intro f hev hlo hhi
    by_cases hA : f ≤ 24 ∧ 4 ≤ f
    · refine ⟨(f - 4) / 2, by omega, ?_⟩
      rw [hval _ (by omega)]
      have : (f - 4) / 2 ≤ 10 := by omega
      rw [if_pos this]
      congr 1
      omega
    · by_cases hB : 28 ≤ f ∧ f ≤ 78
      · refine ⟨(f - 6) / 2, by omega, ?_⟩
        rw [hval _ (by omega)]
        have hn : ¬ (f - 6) / 2 ≤ 10 := by omega
        have hp : (f - 6) / 2 ≤ 36 := by omega
        rw [if_neg hn, if_pos hp]
        congr 1
        omega
      · have hcases : f = 2 ∨ f = 26 ∨ f = 80 := by omega
        rcases hcases with rfl | rfl | rfl
        · exact ⟨37, by decide, rfl⟩
        · exact ⟨38, by decide, rfl⟩
        · exact ⟨39, by decide, rfl⟩

/-- Witness for C33: the advertising channel 37 and the data channel 0 lie at the
different offsets 2 and 4. -/
theorem frequency_from_channel_bijective_witness :
    37 < 40 ∧ 0 < 40 ∧ frequency_from_channel 37 ≠ frequency_from_channel 0 :=
  ⟨by decide, by decide,
    (frequency_from_channel_bijective 37 0 (by decide) (by decide)).1 (by decide)⟩

/-- C35: `set_access_address_and_crc_init` splits the access address without loss: for
every 32 bit access address `a` the register `BASE0` receives `(a << 8) & 0xFFFFFF00`,
`PREFIX0` receives `(a >> 24) & 0xFF`, the two give `a` back as
`(PREFIX0 << 24) | (BASE0 >> 8)`, and `CRCINIT` receives `crc_init` as it is. -/
theorem access_address_split_lossless (s : machine) (a crc_init : Nat)
    (ha : a < 2 ^ 32) :
    (set_access_address_and_crc_init s a crc_init).BASE0
      = ((a <<< 8) % 2 ^ 32) &&& 0xFFFFFF00 ∧
    (set_access_address_and_crc_init s a crc_init).PREFIX0 = (a >>> 24) &&& 0xFF ∧
    ((set_access_address_and_crc_init s a crc_init).PREFIX0 <<< 24) |||
        ((set_access_address_and_crc_init s a crc_init).BASE0 >>> 8) = a ∧
    (set_access_address_and_crc_init s a crc_init).CRCINIT = crc_init := by
  have hbase : ((a <<< 8) % 4294967296) &&& 0xFFFFFF00 = (a % 16777216) <<< 8 := by
    have h1 : (a <<< 8) % 4294967296 = (a % 16777216) <<< 8 := by
      rw [Nat.shiftLeft_eq, Nat.shiftLeft_eq]
      omega
    have h2 : (0xFFFFFF00 : Nat) = (2 ^ 24 - 1) <<< 8 := by decide
    have hy : a % 16777216 < 2 ^ 24 := by omega
    rw [h1, h2]
    apply Nat.eq_of_testBit_eq
    intro i
    rw [Nat.testBit_and, Nat.testBit_shiftLeft, Nat.testBit_shiftLeft,
      Nat.testBit_two_pow_sub_one]
    by_cases hi : 8 ≤ i
    · by_cases hj : i - 8 < 24
      · simp [hi, hj]
      · have hpow : 2 ^ 24 ≤ 2 ^ (i - 8) := Nat.pow_le_pow_right (by decide) (by omega)
        have hfalse : (a % 16777216).testBit (i - 8) = false :=
          Nat.testBit_lt_two_pow (lt_of_lt_of_le hy hpow)
        simp [hfalse]
    · simp [hi]
  have hprefix : (a >>> 24) &&& 0xFF = a / 16777216 := by
    have h255 : (0xFF : Nat) = 2 ^ 8 - 1 := by decide
    rw [h255, Nat.and_pow_two_sub_one_eq_mod, Nat.shiftRight_eq_div_pow]
    omega
  have hlow : ((a % 16777216) <<< 8) >>> 8 = a % 16777216 := by
    rw [Nat.shiftLeft_eq, Nat.shiftRight_eq_div_pow]
    omega
  have hlt : a % 16777216 < 2 ^ 24 := by omega
  refine ⟨rfl, rfl, ?_, rfl⟩
  show (((a >>> 24) &&& RADIO_PREFIX0_AP0_Msk) <<< 24) |||
      ((((a <<< 8) % two32) &&& 0xFFFFFF00) >>> 8) = a
  unfold RADIO_PREFIX0_AP0_Msk two32
  rw [hbase, hprefix, hlow, Nat.shiftLeft_eq, Nat.mul_comm, ← Nat.mul_add_lt_is_or hlt]
  omega

/-- Witness for C35: the access address `0x8E89BED6` of the advertising channels. -/
theorem access_address_split_lossless_witness :
    0x8E89BED6 < 2 ^ 32 ∧
    (set_access_address_and_crc_init constructed 0x8E89BED6 0x555555).BASE0 = 0x89BED600 ∧
    (set_access_address_and_crc_init constructed 0x8E89BED6 0x555555).PREFIX0 = 0x8E ∧
    ((set_access_address_and_crc_init constructed 0x8E89BED6 0x555555).PREFIX0 <<< 24) |||
        ((set_access_address_and_crc_init constructed 0x8E89BED6 0x555555).BASE0 >>> 8)
      = 0x8E89BED6 :=
  ⟨by decide, by decide, by decide,
    (access_address_split_lossless constructed 0x8E89BED6 0x555555 (by decide)).2.2.1⟩

end nrf51_details

namespace bluetoe

/-! ## Theorems about write access -/

end bluetoe
